import Mathlib

/-!
Verification development for the financial-data CRUD service.

The Python service (FastAPI + Tortoise ORM) is shallowly embedded here:

* `Json` models the JSON values moving over the wire and the contents of
  the nullable JSON columns; Python floats are carried as `Rat` (the
  claims are structural, no float arithmetic occurs in the service).
* The pydantic request models of `app/models/pydantic_models.py` become
  inductive types (`CompositeValue`, `PercentageMultipleValue`, ...),
  one constructor per union member, and the body validation becomes
  `parseFinancialDataModel` (pydantic v1 `Union` tries members left to
  right; a member accepts an object when its `type` literal matches,
  or is absent so the default applies, and its required fields are
  present with the declared shapes; undeclared keys are ignored).
* The ORM row `FinancialData` of `app/models/financial_data.py` becomes
  a structure whose slot columns are `Option` enum / `Option` payload
  pairs, `to_dict` becomes `FinancialData.to_dict` (returning `none`
  exactly when the Python method would raise on a `None` data column),
  and timestamps are abstract `Nat` instants supplied to each handler.
* The route handlers of `app/api/routes.py` become pure functions from
  a `Store` (rows in insertion order plus the id counter) and a request
  to the next `Store` and an `HttpResponse`.
-/

/-- JSON values as exchanged over the wire and stored in JSON columns.
Numbers are carried as `Rat`. -/
inductive Json where
  | null
  | bool (b : Bool)
  | num (q : Rat)
  | str (s : String)
  | arr (xs : List Json)
  | obj (fs : List (String × Json))
deriving Repr, Inhabited

/-- Python `dict.get(key)`: the value under `key`, or `None` (JSON null)
when the key is absent. -/
def dictGet (d : List (String × Json)) (k : String) : Json :=
  (d.lookup k).getD Json.null

/-- The `TermSheetStatus` enum (`app/models/financial_data.py`). -/
inductive TermSheetStatus where
  | YES
  | PARTIAL
  | NO
  | NA
  | NOT_STATED
deriving Repr, DecidableEq, Inhabited

def TermSheetStatus.value : TermSheetStatus → String
  | .YES => "Yes"
  | .PARTIAL => "Partial"
  | .NO => "No"
  | .NA => "N/A"
  | .NOT_STATED => "Not stated in Term Sheet"

/-- The `CompositeValueType` enum. -/
inductive CompositeValueType where
  | NUMBER
  | GREATER_OF
  | NO_MINIMUM
  | NO_PIK
deriving Repr, DecidableEq, Inhabited

def CompositeValueType.value : CompositeValueType → String
  | .NUMBER => "number"
  | .GREATER_OF => "greater_of"
  | .NO_MINIMUM => "no_minimum"
  | .NO_PIK => "no_pik"

/-- The `PercentageMultipleType` enum. -/
inductive PercentageMultipleType where
  | PERCENTAGE
  | NO_CASH_REQUIREMENT
  | NOT_STATED
deriving Repr, DecidableEq, Inhabited

def PercentageMultipleType.value : PercentageMultipleType → String
  | .PERCENTAGE => "percentage"
  | .NO_CASH_REQUIREMENT => "no_cash_requirement"
  | .NOT_STATED => "not_stated"

/-- The `NamesListType` enum. -/
inductive NamesListType where
  | NAMES_LIST
  | NA
deriving Repr, DecidableEq, Inhabited

def NamesListType.value : NamesListType → String
  | .NAMES_LIST => "names_list"
  | .NA => "na"

/-- The `FinancialRatioType` enum. -/
inductive FinancialRatioType where
  | FIRST_LIEN
  | SENIOR_SECURED
  | SECURED
  | TOTAL_NET
  | FIXED_CHARGE
  | INTEREST_COVERAGE
  | NO_COVENANT
  | NOT_STATED
deriving Repr, DecidableEq, Inhabited

def FinancialRatioType.value : FinancialRatioType → String
  | .FIRST_LIEN => "first_lien"
  | .SENIOR_SECURED => "senior_secured"
  | .SECURED => "secured"
  | .TOTAL_NET => "total_net"
  | .FIXED_CHARGE => "fixed_charge"
  | .INTEREST_COVERAGE => "interest_coverage"
  | .NO_COVENANT => "no_covenant"
  | .NOT_STATED => "not_stated"

/-- The `PercentageConditionType` enum. -/
inductive PercentageConditionType where
  | WITH_LEVERAGE_TEST
  | NO_LEVERAGE_TEST
  | BASKET_NO_COMPONENT
  | NO_BASKET
  | NOT_STATED
deriving Repr, DecidableEq, Inhabited

def PercentageConditionType.value : PercentageConditionType → String
  | .WITH_LEVERAGE_TEST => "with_leverage_test"
  | .NO_LEVERAGE_TEST => "no_leverage_test"
  | .BASKET_NO_COMPONENT => "basket_no_component"
  | .NO_BASKET => "no_basket"
  | .NOT_STATED => "not_stated"

/-- The `GreaterOfModel`: details of a "greater of" composite value. -/
structure GreaterOfModel where
  amount : Rat
  percentage : Rat
  metric : String
deriving Repr, DecidableEq

/-- The `LeverageTestModel`: details of a leverage test. -/
structure LeverageTestModel where
  multiplier : Rat
  metric : String
deriving Repr, DecidableEq

/-- The validated `composite_value` slot: the union
`NumberValue | GreaterOfValue | NoMinimumValue | NoPikValue`. -/
inductive CompositeValue where
  | number (value : Rat)
  | greater_of (details : GreaterOfModel)
  | no_minimum
  | no_pik
deriving Repr, DecidableEq

/-- The validated `percentage_multiple` slot: the union
`PercentageMultipleValue | NoCashRequirementValue | PercentageNotStatedValue`. -/
inductive PercentageMultipleValue where
  | percentage (value : Rat)
  | no_cash_requirement
  | not_stated
deriving Repr, DecidableEq

/-- The validated `names_list` slot: the union
`NamesListValue | NamesListNAValue`. -/
inductive NamesListValue where
  | names_list (names : List String)
  | na
deriving Repr, DecidableEq

/-- The validated `financial_ratio` slot: the union of the six ratio
variants with `NoCovenantValue | RatioNotStatedValue`. -/
inductive FinancialRatioValue where
  | first_lien (ratio : Rat)
  | senior_secured (ratio : Rat)
  | secured (ratio : Rat)
  | total_net (ratio : Rat)
  | fixed_charge (ratio : Rat)
  | interest_coverage (ratio : Rat)
  | no_covenant
  | not_stated
deriving Repr, DecidableEq

/-- The validated `percentage_condition` slot: the union
`PercentageWithLeverageTestValue | PercentageNoLeverageTestValue |
BasketNoComponentValue | NoBasketValue | PercentageConditionNotStatedValue`. -/
inductive PercentageConditionValue where
  | with_leverage_test (percentage : Rat) (test : LeverageTestModel)
  | no_leverage_test (percentage : Rat)
  | basket_no_component
  | no_basket
  | not_stated
deriving Repr, DecidableEq

/-- The `FinancialDataModel`: the validated request / response body
(`app/models/pydantic_models.py`). All fields are optional. -/
structure FinancialDataModel where
  id : Option Int := none
  boolean_value : Option Bool := none
  term_sheet_status : Option TermSheetStatus := none
  numeric_value : Option Rat := none
  date_value : Option String := none
  composite_value : Option CompositeValue := none
  percentage_multiple : Option PercentageMultipleValue := none
  names_list : Option NamesListValue := none
  financial_ratio : Option FinancialRatioValue := none
  percentage_condition : Option PercentageConditionValue := none
  created_at : Option String := none
  updated_at : Option String := none
deriving Repr, DecidableEq

/-- The stored row of the `financial_data` table
(`app/models/financial_data.py`, class `FinancialData`). Each composite
slot is a nullable enum column plus a nullable JSON column; timestamps
are abstract instants. -/
structure FinancialData where
  id : Nat
  boolean_value : Option Bool := none
  term_sheet_status : Option TermSheetStatus := none
  numeric_value : Option Rat := none
  date_value : Option String := none
  composite_value_type : Option CompositeValueType := none
  composite_value_data : Option (List (String × Json)) := none
  percentage_multiple_type : Option PercentageMultipleType := none
  percentage_multiple_data : Option (List (String × Json)) := none
  names_list_type : Option NamesListType := none
  names_list_data : Option (List (String × Json)) := none
  financial_ratio_type : Option FinancialRatioType := none
  financial_ratio_data : Option (List (String × Json)) := none
  percentage_condition_type : Option PercentageConditionType := none
  percentage_condition_data : Option (List (String × Json)) := none
  created_at : Nat := 0
  updated_at : Nat := 0
deriving Repr

/-- Slot processing for `composite_value` shared by the create and
update handlers (`app/api/routes.py`): the stored enum together with the
JSON column contents. -/
def ingestCompositeValue : CompositeValue → CompositeValueType × List (String × Json)
  | .number value => (.NUMBER, [("value", Json.num value)])
  | .greater_of details =>
      (.GREATER_OF,
        [("details", Json.obj
          [("amount", Json.num details.amount),
           ("percentage", Json.num details.percentage),
           ("metric", Json.str details.metric)])])
  | .no_minimum => (.NO_MINIMUM, [])
  | .no_pik => (.NO_PIK, [])

/-- Slot processing for `percentage_multiple` (`app/api/routes.py`). -/
def ingestPercentageMultiple : PercentageMultipleValue → PercentageMultipleType × List (String × Json)
  | .percentage value => (.PERCENTAGE, [("value", Json.num value)])
  | .no_cash_requirement => (.NO_CASH_REQUIREMENT, [])
  | .not_stated => (.NOT_STATED, [])

/-- Slot processing for `names_list` (`app/api/routes.py`). -/
def ingestNamesList : NamesListValue → NamesListType × List (String × Json)
  | .names_list names => (.NAMES_LIST, [("names", Json.arr (names.map Json.str))])
  | .na => (.NA, [])

/-- Slot processing for `financial_ratio` (`app/api/routes.py`): every
variant other than `no_covenant` / `not_stated` stores its ratio. -/
def ingestFinancialRatio : FinancialRatioValue → FinancialRatioType × List (String × Json)
  | .first_lien ratio => (.FIRST_LIEN, [("ratio", Json.num ratio)])
  | .senior_secured ratio => (.SENIOR_SECURED, [("ratio", Json.num ratio)])
  | .secured ratio => (.SECURED, [("ratio", Json.num ratio)])
  | .total_net ratio => (.TOTAL_NET, [("ratio", Json.num ratio)])
  | .fixed_charge ratio => (.FIXED_CHARGE, [("ratio", Json.num ratio)])
  | .interest_coverage ratio => (.INTEREST_COVERAGE, [("ratio", Json.num ratio)])
  | .no_covenant => (.NO_COVENANT, [])
  | .not_stated => (.NOT_STATED, [])

/-- Slot processing for `percentage_condition` (`app/api/routes.py`). -/
def ingestPercentageCondition : PercentageConditionValue → PercentageConditionType × List (String × Json)
  | .with_leverage_test percentage test =>
      (.WITH_LEVERAGE_TEST,
        [("percentage", Json.num percentage),
         ("test", Json.obj
           [("multiplier", Json.num test.multiplier),
            ("metric", Json.str test.metric)])])
  | .no_leverage_test percentage =>
      (.NO_LEVERAGE_TEST, [("percentage", Json.num percentage)])
  | .basket_no_component => (.BASKET_NO_COMPONENT, [])
  | .no_basket => (.NO_BASKET, [])
  | .not_stated => (.NOT_STATED, [])

/-- The `to_dict` handling of the `composite_value` slot: the association
list entries contributed to the result (empty when the slot is unset),
or `none` when the Python code would dereference a `None` data column. -/
def projectCompositeValue :
    Option CompositeValueType → Option (List (String × Json)) →
    Option (List (String × Json))
  | none, _ => some []
  | some t, d =>
    match t with
    | .NUMBER =>
        match d with
        | none => none
        | some dd =>
            some [("composite_value",
              Json.obj [("type", Json.str t.value), ("value", dictGet dd "value")])]
    | .GREATER_OF =>
        match d with
        | none => none
        | some dd =>
            some [("composite_value",
              Json.obj [("type", Json.str t.value), ("details", dictGet dd "details")])]
    | _ => some [("composite_value", Json.obj [("type", Json.str t.value)])]

/-- The `to_dict` handling of the `percentage_multiple` slot. -/
def projectPercentageMultiple :
    Option PercentageMultipleType → Option (List (String × Json)) →
    Option (List (String × Json))
  | none, _ => some []
  | some t, d =>
    match t with
    | .PERCENTAGE =>
        match d with
        | none => none
        | some dd =>
            some [("percentage_multiple",
              Json.obj [("type", Json.str t.value), ("value", dictGet dd "value")])]
    | _ => some [("percentage_multiple", Json.obj [("type", Json.str t.value)])]

/-- The `to_dict` handling of the `names_list` slot. -/
def projectNamesList :
    Option NamesListType → Option (List (String × Json)) →
    Option (List (String × Json))
  | none, _ => some []
  | some t, d =>
    match t with
    | .NAMES_LIST =>
        match d with
        | none => none
        | some dd =>
            some [("names_list",
              Json.obj [("type", Json.str t.value), ("names", dictGet dd "names")])]
    | .NA => some [("names_list", Json.obj [("type", Json.str t.value)])]

/-- The `to_dict` handling of the `financial_ratio` slot: variants other
than `no_covenant` / `not_stated` surface their stored ratio. -/
def projectFinancialRatio :
    Option FinancialRatioType → Option (List (String × Json)) →
    Option (List (String × Json))
  | none, _ => some []
  | some t, d =>
    match t with
    | .NO_COVENANT => some [("financial_ratio", Json.obj [("type", Json.str t.value)])]
    | .NOT_STATED => some [("financial_ratio", Json.obj [("type", Json.str t.value)])]
    | _ =>
        match d with
        | none => none
        | some dd =>
            some [("financial_ratio",
              Json.obj [("type", Json.str t.value), ("ratio", dictGet dd "ratio")])]

/-- The `to_dict` handling of the `percentage_condition` slot. -/
def projectPercentageCondition :
    Option PercentageConditionType → Option (List (String × Json)) →
    Option (List (String × Json))
  | none, _ => some []
  | some t, d =>
    match t with
    | .WITH_LEVERAGE_TEST =>
        match d with
        | none => none
        | some dd =>
            some [("percentage_condition",
              Json.obj [("type", Json.str t.value),
                ("percentage", dictGet dd "percentage"),
                ("test", dictGet dd "test")])]
    | .NO_LEVERAGE_TEST =>
        match d with
        | none => none
        | some dd =>
            some [("percentage_condition",
              Json.obj [("type", Json.str t.value),
                ("percentage", dictGet dd "percentage")])]
    | _ => some [("percentage_condition", Json.obj [("type", Json.str t.value)])]

/-- The scalar entries `to_dict` always emits, in source order. -/
def baseDict (r : FinancialData) : List (String × Json) :=
  [("id", Json.num r.id),
   ("boolean_value", (r.boolean_value.map Json.bool).getD Json.null),
   ("term_sheet_status",
     (r.term_sheet_status.map (fun s => Json.str s.value)).getD Json.null),
   ("numeric_value", (r.numeric_value.map Json.num).getD Json.null),
   ("date_value", (r.date_value.map Json.str).getD Json.null),
   ("created_at", Json.str (toString r.created_at)),
   ("updated_at", Json.str (toString r.updated_at))]

/-- The `FinancialData.to_dict` (`app/models/financial_data.py`): the wire
dictionary, or `none` exactly when the Python method would raise because
a populated slot needs a `None` data column. -/
def FinancialData.to_dict (r : FinancialData) : Option (List (String × Json)) := do
  let p1 ← projectCompositeValue r.composite_value_type r.composite_value_data
  let p2 ← projectPercentageMultiple r.percentage_multiple_type r.percentage_multiple_data
  let p3 ← projectNamesList r.names_list_type r.names_list_data
  let p4 ← projectFinancialRatio r.financial_ratio_type r.financial_ratio_data
  let p5 ← projectPercentageCondition r.percentage_condition_type r.percentage_condition_data
  pure (baseDict r ++ p1 ++ p2 ++ p3 ++ p4 ++ p5)

/-- A slot-level validation failure, in the taxonomy of the error
design: the `type` discriminator named an unrecognized variant, or some
field required by the recognized variant is absent or malformed. -/
inductive SlotError where
  | UnknownVariant
  | MissingField
deriving Repr, DecidableEq

/-- A request-body validation failure: a composite slot failed, or a
scalar field (or the body itself) had the wrong shape. -/
inductive ValidationError where
  | slot (name : String) (e : SlotError)
  | scalar (name : String)
deriving Repr, DecidableEq

/-- A JSON string, as required by a pydantic `str` field. -/
def jStr : Json → Option String
  | .str s => some s
  | _ => none

/-- Splitting a character list at the first separator, when present. -/
def splitOnChar (p : Char → Bool) : List Char → List Char × Option (List Char)
  | [] => ([], none)
  | c :: rest =>
    if p c then ([], some rest)
    else
      let (a, b) := splitOnChar p rest
      (c :: a, b)

/-- An optional leading sign of a numeric literal. -/
def readSign : List Char → Int × List Char
  | '+' :: rest => (1, rest)
  | '-' :: rest => (-1, rest)
  | cs => (1, cs)

/-- A possibly empty digit run as a natural number; fails on any
non-digit character. -/
def readDigits0 (cs : List Char) : Option Nat :=
  cs.foldlM (fun acc c => if c.isDigit then some (acc * 10 + (c.toNat - 48)) else none) 0

/-- The mantissa of a float literal: digits with an optional fractional
part, at least one digit present. -/
def readMantissa (cs : List Char) : Option Rat :=
  let (ip, fpOpt) := splitOnChar (fun c => c == '.') cs
  match fpOpt with
  | none =>
    if ip.isEmpty then none
    else (readDigits0 ip).map (fun n => (n : Rat))
  | some fp =>
    if ip.isEmpty && fp.isEmpty then none
    else do
      let i ← readDigits0 ip
      let f ← readDigits0 fp
      pure ((i : Rat) + (f : Rat) / ((10 : Rat) ^ fp.length))

/-- A finite decimal float literal as the lax string-to-float coercion
accepts: optional sign, digits with optional fractional part, optional
decimal exponent. Non-finite floats are outside the model's number
carrier and no claim exercises them. -/
def parseFloatLit (s : String) : Option Rat :=
  let cs := ((s.data.dropWhile Char.isWhitespace).reverse.dropWhile
    Char.isWhitespace).reverse
  let (sgn, cs) := readSign cs
  let (mant, expOpt) := splitOnChar (fun c => c == 'e' || c == 'E') cs
  match expOpt with
  | none => (readMantissa mant).map (fun q => (sgn : Rat) * q)
  | some ecs =>
    let (esgn, ecs) := readSign ecs
    if ecs.isEmpty then none
    else do
      let q ← readMantissa mant
      let e ← readDigits0 ecs
      pure ((sgn : Rat) * q * (10 : Rat) ^ (esgn * (e : Int)))

/-- A value for a pydantic `float` field in lax mode: a JSON number, or
a numeric string coerced to a float (pydantic v1 and v2 lax both coerce
numeric strings). -/
def jNum : Json → Option Rat
  | .num q => some q
  | .str s => parseFloatLit s
  | _ => none

/-- A JSON boolean, as required by a pydantic `bool` field. -/
def jBool : Json → Option Bool
  | .bool b => some b
  | _ => none

/-- A JSON integer, as required by a pydantic `int` field. -/
def jInt : Json → Option Int
  | .num q => if q.den = 1 then some q.num else none
  | _ => none

/-- A JSON array of strings, as required by a pydantic `List[str]`
field. -/
def jStrList : Json → Option (List String)
  | .arr xs => xs.mapM jStr
  | _ => none

/-- Whether an object is accepted by a union member whose
`type: Literal[lit]` field has `lit` as its default: the key may be
absent (the default applies) or must equal the literal. -/
def typeMatches (fs : List (String × Json)) (lit : String) : Bool :=
  match fs.lookup "type" with
  | none => true
  | some (.str s) => s == lit
  | some _ => false

/-- A required field of a union member: present and of the declared
shape. -/
def reqField {α : Type} (fs : List (String × Json)) (k : String)
    (p : Json → Option α) : Option α :=
  (fs.lookup k).bind p

/-- The `GreaterOfModel` validation: `amount`, `percentage`, `metric`
required; undeclared keys ignored. -/
def parseGreaterOfModel (j : Json) : Option GreaterOfModel :=
  match j with
  | .obj fs => do
    let amount ← reqField fs "amount" jNum
    let percentage ← reqField fs "percentage" jNum
    let metric ← reqField fs "metric" jStr
    pure ⟨amount, percentage, metric⟩
  | _ => none

/-- The `LeverageTestModel` validation: `multiplier`, `metric` required. -/
def parseLeverageTestModel (j : Json) : Option LeverageTestModel :=
  match j with
  | .obj fs => do
    let multiplier ← reqField fs "multiplier" jNum
    let metric ← reqField fs "metric" jStr
    pure ⟨multiplier, metric⟩
  | _ => none

/-- The `composite_value` union, members tried in declaration order:
`NumberValue`, `GreaterOfValue`, `NoMinimumValue`, `NoPikValue`. -/
def parseCompositeMember (fs : List (String × Json)) : Option CompositeValue :=
  (if typeMatches fs "number" then
      (reqField fs "value" jNum).map CompositeValue.number
   else none) <|>
  (if typeMatches fs "greater_of" then
      (reqField fs "details" parseGreaterOfModel).map CompositeValue.greater_of
   else none) <|>
  (if typeMatches fs "no_minimum" then some CompositeValue.no_minimum else none) <|>
  (if typeMatches fs "no_pik" then some CompositeValue.no_pik else none)

/-- The `percentage_multiple` union, members in declaration order. -/
def parsePercentageMultipleMember (fs : List (String × Json)) :
    Option PercentageMultipleValue :=
  (if typeMatches fs "percentage" then
      (reqField fs "value" jNum).map PercentageMultipleValue.percentage
   else none) <|>
  (if typeMatches fs "no_cash_requirement" then
      some PercentageMultipleValue.no_cash_requirement
   else none) <|>
  (if typeMatches fs "not_stated" then some PercentageMultipleValue.not_stated else none)

/-- The `names_list` union, members in declaration order. -/
def parseNamesListMember (fs : List (String × Json)) : Option NamesListValue :=
  (if typeMatches fs "names_list" then
      (reqField fs "names" jStrList).map NamesListValue.names_list
   else none) <|>
  (if typeMatches fs "na" then some NamesListValue.na else none)

/-- The `financial_ratio` union, members in declaration order. -/
def parseFinancialRatioMember (fs : List (String × Json)) :
    Option FinancialRatioValue :=
  (if typeMatches fs "first_lien" then
      (reqField fs "ratio" jNum).map FinancialRatioValue.first_lien
   else none) <|>
  (if typeMatches fs "senior_secured" then
      (reqField fs "ratio" jNum).map FinancialRatioValue.senior_secured
   else none) <|>
  (if typeMatches fs "secured" then
      (reqField fs "ratio" jNum).map FinancialRatioValue.secured
   else none) <|>
  (if typeMatches fs "total_net" then
      (reqField fs "ratio" jNum).map FinancialRatioValue.total_net
   else none) <|>
  (if typeMatches fs "fixed_charge" then
      (reqField fs "ratio" jNum).map FinancialRatioValue.fixed_charge
   else none) <|>
  (if typeMatches fs "interest_coverage" then
      (reqField fs "ratio" jNum).map FinancialRatioValue.interest_coverage
   else none) <|>
  (if typeMatches fs "no_covenant" then some FinancialRatioValue.no_covenant else none) <|>
  (if typeMatches fs "not_stated" then some FinancialRatioValue.not_stated else none)

/-- The `percentage_condition` union, members in declaration order. -/
def parsePercentageConditionMember (fs : List (String × Json)) :
    Option PercentageConditionValue :=
  (if typeMatches fs "with_leverage_test" then
      match reqField fs "percentage" jNum, reqField fs "test" parseLeverageTestModel with
      | some percentage, some test =>
          some (PercentageConditionValue.with_leverage_test percentage test)
      | _, _ => none
   else none) <|>
  (if typeMatches fs "no_leverage_test" then
      (reqField fs "percentage" jNum).map PercentageConditionValue.no_leverage_test
   else none) <|>
  (if typeMatches fs "basket_no_component" then
      some PercentageConditionValue.basket_no_component
   else none) <|>
  (if typeMatches fs "no_basket" then some PercentageConditionValue.no_basket else none) <|>
  (if typeMatches fs "not_stated" then
      some PercentageConditionValue.not_stated
   else none)

/-- When every union member rejects an object, classify the failure:
`UnknownVariant` when the `type` discriminator is a string outside the
slot's variant set, `MissingField` otherwise (required field absent,
wrong shape, or malformed nested object). -/
def classifySlotError (fs : List (String × Json)) (tags : List String) : SlotError :=
  match fs.lookup "type" with
  | some (.str t) => if t ∈ tags then .MissingField else .UnknownVariant
  | _ => .MissingField

def compositeValueTags : List String :=
  ["number", "greater_of", "no_minimum", "no_pik"]

def percentageMultipleTags : List String :=
  ["percentage", "no_cash_requirement", "not_stated"]

def namesListTags : List String := ["names_list", "na"]

def financialRatioTags : List String :=
  ["first_lien", "senior_secured", "secured", "total_net", "fixed_charge",
   "interest_coverage", "no_covenant", "not_stated"]

def percentageConditionTags : List String :=
  ["with_leverage_test", "no_leverage_test", "basket_no_component",
   "no_basket", "not_stated"]

/-- Validation of a populated `composite_value` slot. -/
def parseCompositeValue (j : Json) : Except SlotError CompositeValue :=
  match j with
  | .obj fs =>
    match parseCompositeMember fs with
    | some v => .ok v
    | none => .error (classifySlotError fs compositeValueTags)
  | _ => .error SlotError.MissingField

/-- Validation of a populated `percentage_multiple` slot. -/
def parsePercentageMultiple (j : Json) : Except SlotError PercentageMultipleValue :=
  match j with
  | .obj fs =>
    match parsePercentageMultipleMember fs with
    | some v => .ok v
    | none => .error (classifySlotError fs percentageMultipleTags)
  | _ => .error SlotError.MissingField

/-- Validation of a populated `names_list` slot. -/
def parseNamesList (j : Json) : Except SlotError NamesListValue :=
  match j with
  | .obj fs =>
    match parseNamesListMember fs with
    | some v => .ok v
    | none => .error (classifySlotError fs namesListTags)
  | _ => .error SlotError.MissingField

/-- Validation of a populated `financial_ratio` slot. -/
def parseFinancialRatio (j : Json) : Except SlotError FinancialRatioValue :=
  match j with
  | .obj fs =>
    match parseFinancialRatioMember fs with
    | some v => .ok v
    | none => .error (classifySlotError fs financialRatioTags)
  | _ => .error SlotError.MissingField

/-- Validation of a populated `percentage_condition` slot. -/
def parsePercentageCondition (j : Json) : Except SlotError PercentageConditionValue :=
  match j with
  | .obj fs =>
    match parsePercentageConditionMember fs with
    | some v => .ok v
    | none => .error (classifySlotError fs percentageConditionTags)
  | _ => .error SlotError.MissingField

/-- The `term_sheet_status` enum from its wire string. -/
def parseTermSheetStatus (s : String) : Option TermSheetStatus :=
  if s = "Yes" then some .YES
  else if s = "Partial" then some .PARTIAL
  else if s = "No" then some .NO
  else if s = "N/A" then some .NA
  else if s = "Not stated in Term Sheet" then some .NOT_STATED
  else none

/-- An `Optional` scalar field of the body: absent or JSON null is
`None`; otherwise the declared shape is required. -/
def optScalar {α : Type} (fs : List (String × Json)) (k : String)
    (p : Json → Option α) : Except ValidationError (Option α) :=
  match fs.lookup k with
  | none => .ok none
  | some .null => .ok none
  | some j =>
    match p j with
    | some v => .ok (some v)
    | none => .error (.scalar k)

/-- An `Optional` composite slot of the body: absent or JSON null is
`None`; otherwise the slot union must accept the value. -/
def optSlot {α : Type} (fs : List (String × Json)) (k : String)
    (p : Json → Except SlotError α) : Except ValidationError (Option α) :=
  match fs.lookup k with
  | none => .ok none
  | some .null => .ok none
  | some j =>
    match p j with
    | .ok v => .ok (some v)
    | .error e => .error (.slot k e)

/-- Body validation for `FinancialDataModel`: the request body FastAPI
decodes before any handler runs. Date strings are kept opaque. -/
def parseFinancialDataModel (j : Json) : Except ValidationError FinancialDataModel :=
  match j with
  | .obj fs => do
    let idv ← optScalar fs "id" jInt
    let boolean_value ← optScalar fs "boolean_value" jBool
    let term_sheet_status ← optScalar fs "term_sheet_status"
      (fun x => (jStr x).bind parseTermSheetStatus)
    let numeric_value ← optScalar fs "numeric_value" jNum
    let date_value ← optScalar fs "date_value" jStr
    let composite_value ← optSlot fs "composite_value" parseCompositeValue
    let percentage_multiple ← optSlot fs "percentage_multiple" parsePercentageMultiple
    let names_list ← optSlot fs "names_list" parseNamesList
    let financial_ratio ← optSlot fs "financial_ratio" parseFinancialRatio
    let percentage_condition ← optSlot fs "percentage_condition" parsePercentageCondition
    let created_at ← optScalar fs "created_at" jStr
    let updated_at ← optScalar fs "updated_at" jStr
    pure { id := idv, boolean_value, term_sheet_status, numeric_value,
           date_value, composite_value, percentage_multiple, names_list,
           financial_ratio, percentage_condition, created_at, updated_at }
  | _ => .error (.scalar "body")

/-- The record store: rows in insertion order plus the id sequence. -/
structure Store where
  rows : List FinancialData := []
  nextId : Nat := 1
deriving Repr

/-- The row the create handler builds: `FinancialData.create` with the
scalar fields, then per-slot ingest for each slot present in the body
(`app/api/routes.py`, `create_financial_data`). -/
def createRecord (nextId : Nat) (now : Nat) (data : FinancialDataModel) : FinancialData :=
  let r : FinancialData :=
    { id := nextId
      boolean_value := data.boolean_value
      term_sheet_status := data.term_sheet_status
      numeric_value := data.numeric_value
      date_value := data.date_value
      created_at := now
      updated_at := now }
  let r := match data.composite_value with
    | some v =>
        { r with composite_value_type := some (ingestCompositeValue v).1
                 composite_value_data := some (ingestCompositeValue v).2 }
    | none => r
  let r := match data.percentage_multiple with
    | some v =>
        { r with percentage_multiple_type := some (ingestPercentageMultiple v).1
                 percentage_multiple_data := some (ingestPercentageMultiple v).2 }
    | none => r
  let r := match data.names_list with
    | some v =>
        { r with names_list_type := some (ingestNamesList v).1
                 names_list_data := some (ingestNamesList v).2 }
    | none => r
  let r := match data.financial_ratio with
    | some v =>
        { r with financial_ratio_type := some (ingestFinancialRatio v).1
                 financial_ratio_data := some (ingestFinancialRatio v).2 }
    | none => r
  let r := match data.percentage_condition with
    | some v =>
        { r with percentage_condition_type := some (ingestPercentageCondition v).1
                 percentage_condition_data := some (ingestPercentageCondition v).2 }
    | none => r
  r

/-- The row the update handler builds from an existing row: scalars
assigned from the body, each slot replaced by its ingest when present
and cleared to unset when absent, `updated_at` refreshed on save
(`app/api/routes.py`, `update_financial_data`). -/
def updateRecord (r0 : FinancialData) (now : Nat) (data : FinancialDataModel) : FinancialData :=
  let r := { r0 with
    boolean_value := data.boolean_value
    term_sheet_status := data.term_sheet_status
    numeric_value := data.numeric_value
    date_value := data.date_value
    updated_at := now }
  let r := match data.composite_value with
    | some v =>
        { r with composite_value_type := some (ingestCompositeValue v).1
                 composite_value_data := some (ingestCompositeValue v).2 }
    | none => { r with composite_value_type := none, composite_value_data := none }
  let r := match data.percentage_multiple with
    | some v =>
        { r with percentage_multiple_type := some (ingestPercentageMultiple v).1
                 percentage_multiple_data := some (ingestPercentageMultiple v).2 }
    | none => { r with percentage_multiple_type := none, percentage_multiple_data := none }
  let r := match data.names_list with
    | some v =>
        { r with names_list_type := some (ingestNamesList v).1
                 names_list_data := some (ingestNamesList v).2 }
    | none => { r with names_list_type := none, names_list_data := none }
  let r := match data.financial_ratio with
    | some v =>
        { r with financial_ratio_type := some (ingestFinancialRatio v).1
                 financial_ratio_data := some (ingestFinancialRatio v).2 }
    | none => { r with financial_ratio_type := none, financial_ratio_data := none }
  let r := match data.percentage_condition with
    | some v =>
        { r with percentage_condition_type := some (ingestPercentageCondition v).1
                 percentage_condition_data := some (ingestPercentageCondition v).2 }
    | none => { r with percentage_condition_type := none, percentage_condition_data := none }
  r

/-- An HTTP response of the service, by status. `serverError` marks the
unreachable case in which `to_dict` raises. -/
inductive HttpResponse where
  | created (body : List (String × Json))
  | ok (body : List (String × Json))
  | okList (bodies : List (List (String × Json)))
  | noContent
  | notFound
  | unprocessableEntity (e : ValidationError)
  | serverError
deriving Repr

/-- The `POST /financial_data/`: body validation, then create and project
the new row. The `.created` body carries the projection dictionary the
handler returns to FastAPI; the wire body FastAPI derives from it by
re-validating and re-serializing through the response model is
`apiResponseBody` below. -/
def create_financial_data (s : Store) (now : Nat) (body : Json) :
    Store × HttpResponse :=
  match parseFinancialDataModel body with
  | .error e => (s, .unprocessableEntity e)
  | .ok data =>
    let r := createRecord s.nextId now data
    let s2 : Store := { rows := s.rows ++ [r], nextId := s.nextId + 1 }
    match r.to_dict with
    | some d => (s2, .created d)
    | none => (s2, .serverError)

/-- Projection of a row sequence, as the list endpoint's comprehension
does: every row through `to_dict`, failing if any row fails. -/
def projectAll : List FinancialData → Option (List (List (String × Json)))
  | [] => some []
  | r :: rs => do
    let d ← r.to_dict
    let ds ← projectAll rs
    pure (d :: ds)

/-- The `GET /financial_data/` with `limit` / `offset` query parameters:
defaults 100 and 0, bounds `1 ≤ limit ≤ 1000` and `0 ≤ offset` enforced
at the boundary, then the rows after `offset`, at most `limit` of them,
in stored order. Each `.okList` body carries a projection dictionary;
the wire bodies follow by response-model serialization
(`apiResponseBody`). -/
def get_all_financial_data (s : Store) ( limit offset : Option Int) :
    HttpResponse :=
  let l := limit.getD 100
  let o := offset.getD 0
  if l < 1 ∨ 1000 < l then .unprocessableEntity (.scalar "limit")
  else if o < 0 then .unprocessableEntity (.scalar "offset")
  else
    match projectAll ((s.rows.drop o.toNat).take l.toNat) with
    | some ds => .okList ds
    | none => .serverError

/-- The `GET /financial_data/{id}`. The `.ok` body carries the
projection dictionary; the wire body follows by response-model
serialization (`apiResponseBody`). -/
def get_financial_data (s : Store) (rid : Nat) : HttpResponse :=
  match s.rows.find? (fun r => r.id == rid) with
  | none => .notFound
  | some r =>
    match r.to_dict with
    | some d => .ok d
    | none => .serverError

/-- The `PUT /financial_data/{id}`: body validation, then lookup, then a
wholesale per-slot replace of the stored row. The `.ok` body carries the
projection dictionary; the wire body follows by response-model
serialization (`apiResponseBody`). -/
def update_financial_data (s : Store) (now : Nat) (rid : Nat) (body : Json) :
    Store × HttpResponse :=
  match parseFinancialDataModel body with
  | .error e => (s, .unprocessableEntity e)
  | .ok data =>
    match s.rows.find? (fun r => r.id == rid) with
    | none => (s, .notFound)
    | some r =>
      let r2 := updateRecord r now data
      let s2 : Store := { s with rows := s.rows.map (fun x => if x.id == rid then r2 else x) }
      match r2.to_dict with
      | some d => (s2, .ok d)
      | none => (s2, .serverError)

/-- The `DELETE /financial_data/{id}`. -/
def delete_financial_data (s : Store) (rid : Nat) : Store × HttpResponse :=
  match s.rows.find? (fun r => r.id == rid) with
  | none => (s, .notFound)
  | some _ => ({ s with rows := s.rows.filter (fun r => r.id != rid) }, .noContent)

/-- The wire object for a validated `composite_value`: the tag plus
exactly the fields that tag defines. -/
def wireCompositeValue : CompositeValue → Json
  | .number value =>
      .obj [("type", .str "number"), ("value", .num value)]
  | .greater_of details =>
      .obj [("type", .str "greater_of"),
        ("details", .obj
          [("amount", .num details.amount),
           ("percentage", .num details.percentage),
           ("metric", .str details.metric)])]
  | .no_minimum => .obj [("type", .str "no_minimum")]
  | .no_pik => .obj [("type", .str "no_pik")]

/-- The wire object for a validated `percentage_multiple`. -/
def wirePercentageMultiple : PercentageMultipleValue → Json
  | .percentage value => .obj [("type", .str "percentage"), ("value", .num value)]
  | .no_cash_requirement => .obj [("type", .str "no_cash_requirement")]
  | .not_stated => .obj [("type", .str "not_stated")]

/-- The wire object for a validated `names_list`. -/
def wireNamesList : NamesListValue → Json
  | .names_list names =>
      .obj [("type", .str "names_list"), ("names", .arr (names.map Json.str))]
  | .na => .obj [("type", .str "na")]

/-- The wire object for a validated `financial_ratio`. -/
def wireFinancialRatio : FinancialRatioValue → Json
  | .first_lien ratio => .obj [("type", .str "first_lien"), ("ratio", .num ratio)]
  | .senior_secured ratio => .obj [("type", .str "senior_secured"), ("ratio", .num ratio)]
  | .secured ratio => .obj [("type", .str "secured"), ("ratio", .num ratio)]
  | .total_net ratio => .obj [("type", .str "total_net"), ("ratio", .num ratio)]
  | .fixed_charge ratio => .obj [("type", .str "fixed_charge"), ("ratio", .num ratio)]
  | .interest_coverage ratio =>
      .obj [("type", .str "interest_coverage"), ("ratio", .num ratio)]
  | .no_covenant => .obj [("type", .str "no_covenant")]
  | .not_stated => .obj [("type", .str "not_stated")]

/-- The wire object for a validated `percentage_condition`. -/
def wirePercentageCondition : PercentageConditionValue → Json
  | .with_leverage_test percentage test =>
      .obj [("type", .str "with_leverage_test"),
        ("percentage", .num percentage),
        ("test", .obj
          [("multiplier", .num test.multiplier),
           ("metric", .str test.metric)])]
  | .no_leverage_test percentage =>
      .obj [("type", .str "no_leverage_test"), ("percentage", .num percentage)]
  | .basket_no_component => .obj [("type", .str "basket_no_component")]
  | .no_basket => .obj [("type", .str "no_basket")]
  | .not_stated => .obj [("type", .str "not_stated")]

/-- The payload keys a `composite_value` tag requires in storage. -/
def compositeValueKeys : CompositeValueType → List String
  | .NUMBER => ["value"]
  | .GREATER_OF => ["details"]
  | .NO_MINIMUM => []
  | .NO_PIK => []

/-- The payload keys a `percentage_multiple` tag requires in storage. -/
def percentageMultipleKeys : PercentageMultipleType → List String
  | .PERCENTAGE => ["value"]
  | .NO_CASH_REQUIREMENT => []
  | .NOT_STATED => []

/-- The payload keys a `names_list` tag requires in storage. -/
def namesListKeys : NamesListType → List String
  | .NAMES_LIST => ["names"]
  | .NA => []

/-- The payload keys a `financial_ratio` tag requires in storage. -/
def financialRatioKeys : FinancialRatioType → List String
  | .NO_COVENANT => []
  | .NOT_STATED => []
  | _ => ["ratio"]

/-- The payload keys a `percentage_condition` tag requires in
storage. -/
def percentageConditionKeys : PercentageConditionType → List String
  | .WITH_LEVERAGE_TEST => ["percentage", "test"]
  | .NO_LEVERAGE_TEST => ["percentage"]
  | .BASKET_NO_COMPONENT => []
  | .NO_BASKET => []
  | .NOT_STATED => []

/-- One slot's column pair is consistent: an unset tag constrains
nothing, and a set tag comes with a data column holding exactly the
keys the tag requires. -/
def slotOk {τ : Type} (keys : τ → List String) (t : Option τ)
    (d : Option (List (String × Json))) : Prop :=
  match t with
  | none => True
  | some tt => ∃ dd, d = some dd ∧ dd.map Prod.fst = keys tt

/-- All five slot column pairs of a stored row are consistent. -/
def recordConsistent (r : FinancialData) : Prop :=
  slotOk compositeValueKeys r.composite_value_type r.composite_value_data ∧
  slotOk percentageMultipleKeys r.percentage_multiple_type r.percentage_multiple_data ∧
  slotOk namesListKeys r.names_list_type r.names_list_data ∧
  slotOk financialRatioKeys r.financial_ratio_type r.financial_ratio_data ∧
  slotOk percentageConditionKeys r.percentage_condition_type r.percentage_condition_data


/-- The association-list entries a slot contributes to the wire
dictionary: nothing when unset, one keyed entry when set. -/
def slotEntry (name : String) (j : Option Json) : List (String × Json) :=
  match j with
  | none => []
  | some v => [(name, v)]

theorem projectCompositeValue_ingest (o : Option CompositeValue) :
    projectCompositeValue (o.map fun v => (ingestCompositeValue v).1)
      (o.map fun v => (ingestCompositeValue v).2) =
      some (slotEntry "composite_value" (o.map wireCompositeValue)) := by
  cases o with
  | none => rfl
  | some v => cases v <;> rfl

theorem projectPercentageMultiple_ingest (o : Option PercentageMultipleValue) :
    projectPercentageMultiple (o.map fun v => (ingestPercentageMultiple v).1)
      (o.map fun v => (ingestPercentageMultiple v).2) =
      some (slotEntry "percentage_multiple" (o.map wirePercentageMultiple)) := by
  cases o with
  | none => rfl
  | some v => cases v <;> rfl

theorem projectNamesList_ingest (o : Option NamesListValue) :
    projectNamesList (o.map fun v => (ingestNamesList v).1)
      (o.map fun v => (ingestNamesList v).2) =
      some (slotEntry "names_list" (o.map wireNamesList)) := by
  cases o with
  | none => rfl
  | some v => cases v <;> rfl

theorem projectFinancialRatio_ingest (o : Option FinancialRatioValue) :
    projectFinancialRatio (o.map fun v => (ingestFinancialRatio v).1)
      (o.map fun v => (ingestFinancialRatio v).2) =
      some (slotEntry "financial_ratio" (o.map wireFinancialRatio)) := by
  cases o with
  | none => rfl
  | some v => cases v <;> rfl

theorem projectPercentageCondition_ingest (o : Option PercentageConditionValue) :
    projectPercentageCondition (o.map fun v => (ingestPercentageCondition v).1)
      (o.map fun v => (ingestPercentageCondition v).2) =
      some (slotEntry "percentage_condition" (o.map wirePercentageCondition)) := by
  cases o with
  | none => rfl
  | some v => cases v <;> rfl

theorem createRecord_slots (nextId now : Nat) (m : FinancialDataModel) :
    (createRecord nextId now m).composite_value_type
        = m.composite_value.map (fun v => (ingestCompositeValue v).1) ∧
    (createRecord nextId now m).composite_value_data
        = m.composite_value.map (fun v => (ingestCompositeValue v).2) ∧
    (createRecord nextId now m).percentage_multiple_type
        = m.percentage_multiple.map (fun v => (ingestPercentageMultiple v).1) ∧
    (createRecord nextId now m).percentage_multiple_data
        = m.percentage_multiple.map (fun v => (ingestPercentageMultiple v).2) ∧
    (createRecord nextId now m).names_list_type
        = m.names_list.map (fun v => (ingestNamesList v).1) ∧
    (createRecord nextId now m).names_list_data
        = m.names_list.map (fun v => (ingestNamesList v).2) ∧
    (createRecord nextId now m).financial_ratio_type
        = m.financial_ratio.map (fun v => (ingestFinancialRatio v).1) ∧
    (createRecord nextId now m).financial_ratio_data
        = m.financial_ratio.map (fun v => (ingestFinancialRatio v).2) ∧
    (createRecord nextId now m).percentage_condition_type
        = m.percentage_condition.map (fun v => (ingestPercentageCondition v).1) ∧
    (createRecord nextId now m).percentage_condition_data
        = m.percentage_condition.map (fun v => (ingestPercentageCondition v).2) ∧
    (createRecord nextId now m).id = nextId ∧
    (createRecord nextId now m).created_at = now ∧
    (createRecord nextId now m).updated_at = now := by
  cases hc : m.composite_value <;> cases hp : m.percentage_multiple <;>
    cases hn : m.names_list <;> cases hf : m.financial_ratio <;>
    cases hq : m.percentage_condition <;>
    simp [createRecord, hc, hp, hn, hf, hq]

theorem updateRecord_slots (r : FinancialData) (now : Nat) (m : FinancialDataModel) :
    (updateRecord r now m).composite_value_type
        = m.composite_value.map (fun v => (ingestCompositeValue v).1) ∧
    (updateRecord r now m).composite_value_data
        = m.composite_value.map (fun v => (ingestCompositeValue v).2) ∧
    (updateRecord r now m).percentage_multiple_type
        = m.percentage_multiple.map (fun v => (ingestPercentageMultiple v).1) ∧
    (updateRecord r now m).percentage_multiple_data
        = m.percentage_multiple.map (fun v => (ingestPercentageMultiple v).2) ∧
    (updateRecord r now m).names_list_type
        = m.names_list.map (fun v => (ingestNamesList v).1) ∧
    (updateRecord r now m).names_list_data
        = m.names_list.map (fun v => (ingestNamesList v).2) ∧
    (updateRecord r now m).financial_ratio_type
        = m.financial_ratio.map (fun v => (ingestFinancialRatio v).1) ∧
    (updateRecord r now m).financial_ratio_data
        = m.financial_ratio.map (fun v => (ingestFinancialRatio v).2) ∧
    (updateRecord r now m).percentage_condition_type
        = m.percentage_condition.map (fun v => (ingestPercentageCondition v).1) ∧
    (updateRecord r now m).percentage_condition_data
        = m.percentage_condition.map (fun v => (ingestPercentageCondition v).2) ∧
    (updateRecord r now m).id = r.id ∧
    (updateRecord r now m).created_at = r.created_at ∧
    (updateRecord r now m).updated_at = now := by
  cases hc : m.composite_value <;> cases hp : m.percentage_multiple <;>
    cases hn : m.names_list <;> cases hf : m.financial_ratio <;>
    cases hq : m.percentage_condition <;>
    simp [updateRecord, hc, hp, hn, hf, hq]

theorem to_dict_createRecord (nextId now : Nat) (m : FinancialDataModel) :
    (createRecord nextId now m).to_dict =
      some (baseDict (createRecord nextId now m) ++
        slotEntry "composite_value" (m.composite_value.map wireCompositeValue) ++
        slotEntry "percentage_multiple" (m.percentage_multiple.map wirePercentageMultiple) ++
        slotEntry "names_list" (m.names_list.map wireNamesList) ++
        slotEntry "financial_ratio" (m.financial_ratio.map wireFinancialRatio) ++
        slotEntry "percentage_condition" (m.percentage_condition.map wirePercentageCondition)) := by
  obtain ⟨h1, h2, h3, h4, h5, h6, h7, h8, h9, h10, -⟩ := createRecord_slots nextId now m
  simp [FinancialData.to_dict, h1, h2, h3, h4, h5, h6, h7, h8, h9, h10,
    projectCompositeValue_ingest, projectPercentageMultiple_ingest,
    projectNamesList_ingest, projectFinancialRatio_ingest,
    projectPercentageCondition_ingest]

theorem to_dict_updateRecord (r : FinancialData) (now : Nat) (m : FinancialDataModel) :
    (updateRecord r now m).to_dict =
      some (baseDict (updateRecord r now m) ++
        slotEntry "composite_value" (m.composite_value.map wireCompositeValue) ++
        slotEntry "percentage_multiple" (m.percentage_multiple.map wirePercentageMultiple) ++
        slotEntry "names_list" (m.names_list.map wireNamesList) ++
        slotEntry "financial_ratio" (m.financial_ratio.map wireFinancialRatio) ++
        slotEntry "percentage_condition" (m.percentage_condition.map wirePercentageCondition)) := by
  obtain ⟨h1, h2, h3, h4, h5, h6, h7, h8, h9, h10, -⟩ := updateRecord_slots r now m
  simp [FinancialData.to_dict, h1, h2, h3, h4, h5, h6, h7, h8, h9, h10,
    projectCompositeValue_ingest, projectPercentageMultiple_ingest,
    projectNamesList_ingest, projectFinancialRatio_ingest,
    projectPercentageCondition_ingest]

theorem lookup_wire_slots (r : FinancialData) (o1 o2 o3 o4 o5 : Option Json) :
    letI d := baseDict r ++ slotEntry "composite_value" o1 ++
      slotEntry "percentage_multiple" o2 ++ slotEntry "names_list" o3 ++
      slotEntry "financial_ratio" o4 ++ slotEntry "percentage_condition" o5
    d.lookup "composite_value" = o1 ∧
    d.lookup "percentage_multiple" = o2 ∧
    d.lookup "names_list" = o3 ∧
    d.lookup "financial_ratio" = o4 ∧
    d.lookup "percentage_condition" = o5 := by
  cases o1 <;> cases o2 <;> cases o3 <;> cases o4 <;> cases o5 <;>
    exact ⟨rfl, rfl, rfl, rfl, rfl⟩

theorem lookup_append (k : String) (a b : List (String × Json)) :
    (a ++ b).lookup k = ((a.lookup k).orElse fun _ => b.lookup k) := by
  induction a with
  | nil => simp
  | cons hd tl ih =>
    obtain ⟨k1, v1⟩ := hd
    by_cases h : k = k1
    · subst h
      simp [List.lookup_cons]
    · have hb : (k == k1) = false := by simp [h]
      simp [List.lookup_cons, hb, ih]

theorem lookup_cons_ne (a k : String) (j : Json) (fs : List (String × Json))
    (h : a ≠ k) : ((k, j) :: fs).lookup a = fs.lookup a := by
  have hb : (a == k) = false := by simp [h]
  simp [List.lookup_cons, hb]

/-- A request body exercising every slot, as in the repository's sample
payload. -/
def sampleModel : FinancialDataModel :=
  { boolean_value := some true
    term_sheet_status := some .YES
    numeric_value := some 42
    date_value := some "2025-04-10"
    composite_value := some (.greater_of ⟨1000000, 5, "EBITDA"⟩)
    percentage_multiple := some (.percentage 25)
    names_list := some (.names_list ["John Smith", "Jane Doe"])
    financial_ratio := some (.total_net 3)
    percentage_condition := some (.with_leverage_test 15 ⟨2, "EBITDA"⟩) }

/-- An update body that replaces `composite_value` with a plain number
and leaves every other slot absent. -/
def sampleUpdateModel : FinancialDataModel :=
  { composite_value := some (.number 2000000) }

def sampleCreateDict : List (String × Json) :=
  ((createRecord 1 0 sampleModel).to_dict).getD []

def sampleUpdatedRecord : FinancialData :=
  updateRecord (createRecord 1 0 sampleModel) 3 sampleUpdateModel

def sampleUpdateDict : List (String × Json) :=
  (sampleUpdatedRecord.to_dict).getD []

/-- C1: for every slot and every valid tagged payload for that slot,
ingesting the payload (wire to stored (tag, payload) pair, as the create
and update handlers store it) and then projecting it back through
`to_dict` yields a tagged object equal to the input on exactly the set
of fields the tag defines — for create as well as for update. -/
theorem C1_ingest_project_roundtrip :
    (∀ (nextId now : Nat) (m : FinancialDataModel) (d : List (String × Json)),
      (createRecord nextId now m).to_dict = some d →
        d.lookup "composite_value" = m.composite_value.map wireCompositeValue ∧
        d.lookup "percentage_multiple" = m.percentage_multiple.map wirePercentageMultiple ∧
        d.lookup "names_list" = m.names_list.map wireNamesList ∧
        d.lookup "financial_ratio" = m.financial_ratio.map wireFinancialRatio ∧
        d.lookup "percentage_condition" = m.percentage_condition.map wirePercentageCondition) ∧
    (∀ (r : FinancialData) (now : Nat) (m : FinancialDataModel) (d : List (String × Json)),
      (updateRecord r now m).to_dict = some d →
        d.lookup "composite_value" = m.composite_value.map wireCompositeValue ∧
        d.lookup "percentage_multiple" = m.percentage_multiple.map wirePercentageMultiple ∧
        d.lookup "names_list" = m.names_list.map wireNamesList ∧
        d.lookup "financial_ratio" = m.financial_ratio.map wireFinancialRatio ∧
        d.lookup "percentage_condition" = m.percentage_condition.map wirePercentageCondition) := by
  constructor
  · intro nextId now m d hd
    rw [to_dict_createRecord] at hd
    injection hd with hd
    subst hd
    exact lookup_wire_slots _ _ _ _ _ _
  · intro r now m d hd
    rw [to_dict_updateRecord] at hd
    injection hd with hd
    subst hd
    exact lookup_wire_slots _ _ _ _ _ _

/-- C1 witness: the round-trip law evaluated on the sample create and on
the sample slot-replacing update. -/
theorem C1_ingest_project_roundtrip_witness :
    (sampleCreateDict.lookup "composite_value"
        = sampleModel.composite_value.map wireCompositeValue ∧
      sampleCreateDict.lookup "percentage_multiple"
        = sampleModel.percentage_multiple.map wirePercentageMultiple ∧
      sampleCreateDict.lookup "names_list"
        = sampleModel.names_list.map wireNamesList ∧
      sampleCreateDict.lookup "financial_ratio"
        = sampleModel.financial_ratio.map wireFinancialRatio ∧
      sampleCreateDict.lookup "percentage_condition"
        = sampleModel.percentage_condition.map wirePercentageCondition) ∧
    (sampleUpdateDict.lookup "composite_value"
        = sampleUpdateModel.composite_value.map wireCompositeValue ∧
      sampleUpdateDict.lookup "percentage_multiple"
        = sampleUpdateModel.percentage_multiple.map wirePercentageMultiple ∧
      sampleUpdateDict.lookup "names_list"
        = sampleUpdateModel.names_list.map wireNamesList ∧
      sampleUpdateDict.lookup "financial_ratio"
        = sampleUpdateModel.financial_ratio.map wireFinancialRatio ∧
      sampleUpdateDict.lookup "percentage_condition"
        = sampleUpdateModel.percentage_condition.map wirePercentageCondition) :=
  ⟨C1_ingest_project_roundtrip.1 1 0 sampleModel sampleCreateDict (by rfl),
   C1_ingest_project_roundtrip.2 (createRecord 1 0 sampleModel) 3
     sampleUpdateModel sampleUpdateDict (by rfl)⟩

theorem lookup_single_ne (k name : String) (j : Json) (h : k ≠ name) :
    [(name, j)].lookup k = none := by
  rw [lookup_cons_ne k name j [] h]
  rfl

theorem projectCompositeValue_keys {t : Option CompositeValueType}
    {dt : Option (List (String × Json))} {es : List (String × Json)}
    (h : projectCompositeValue t dt = some es)
    {k : String} (hk : k ≠ "composite_value") : es.lookup k = none := by
  cases t with
  | none => injection h with h; subst h; rfl
  | some tt =>
    cases tt <;> cases dt <;> simp only [projectCompositeValue] at h <;>
      first
      | exact Option.noConfusion h
      | (injection h with h; subst h; exact lookup_single_ne _ _ _ hk)

theorem projectPercentageMultiple_keys {t : Option PercentageMultipleType}
    {dt : Option (List (String × Json))} {es : List (String × Json)}
    (h : projectPercentageMultiple t dt = some es)
    {k : String} (hk : k ≠ "percentage_multiple") : es.lookup k = none := by
  cases t with
  | none => injection h with h; subst h; rfl
  | some tt =>
    cases tt <;> cases dt <;> simp only [projectPercentageMultiple] at h <;>
      first
      | exact Option.noConfusion h
      | (injection h with h; subst h; exact lookup_single_ne _ _ _ hk)

theorem projectNamesList_keys {t : Option NamesListType}
    {dt : Option (List (String × Json))} {es : List (String × Json)}
    (h : projectNamesList t dt = some es)
    {k : String} (hk : k ≠ "names_list") : es.lookup k = none := by
  cases t with
  | none => injection h with h; subst h; rfl
  | some tt =>
    cases tt <;> cases dt <;> simp only [projectNamesList] at h <;>
      first
      | exact Option.noConfusion h
      | (injection h with h; subst h; exact lookup_single_ne _ _ _ hk)

theorem projectFinancialRatio_keys {t : Option FinancialRatioType}
    {dt : Option (List (String × Json))} {es : List (String × Json)}
    (h : projectFinancialRatio t dt = some es)
    {k : String} (hk : k ≠ "financial_ratio") : es.lookup k = none := by
  cases t with
  | none => injection h with h; subst h; rfl
  | some tt =>
    cases tt <;> cases dt <;> simp only [projectFinancialRatio] at h <;>
      first
      | exact Option.noConfusion h
      | (injection h with h; subst h; exact lookup_single_ne _ _ _ hk)

theorem projectPercentageCondition_keys {t : Option PercentageConditionType}
    {dt : Option (List (String × Json))} {es : List (String × Json)}
    (h : projectPercentageCondition t dt = some es)
    {k : String} (hk : k ≠ "percentage_condition") : es.lookup k = none := by
  cases t with
  | none => injection h with h; subst h; rfl
  | some tt =>
    cases tt <;> cases dt <;> simp only [projectPercentageCondition] at h <;>
      first
      | exact Option.noConfusion h
      | (injection h with h; subst h; exact lookup_single_ne _ _ _ hk)

theorem lookup_baseDict_composite (r : FinancialData) :
    (baseDict r).lookup "composite_value" = none := rfl

theorem lookup_baseDict_percentage_multiple (r : FinancialData) :
    (baseDict r).lookup "percentage_multiple" = none := rfl

theorem lookup_baseDict_names_list (r : FinancialData) :
    (baseDict r).lookup "names_list" = none := rfl

theorem lookup_baseDict_financial_ratio (r : FinancialData) :
    (baseDict r).lookup "financial_ratio" = none := rfl

theorem lookup_baseDict_percentage_condition (r : FinancialData) :
    (baseDict r).lookup "percentage_condition" = none := rfl

theorem to_dict_inv {r : FinancialData} {d : List (String × Json)}
    (h : r.to_dict = some d) :
    ∃ p1 p2 p3 p4 p5,
      projectCompositeValue r.composite_value_type r.composite_value_data = some p1 ∧
      projectPercentageMultiple r.percentage_multiple_type r.percentage_multiple_data = some p2 ∧
      projectNamesList r.names_list_type r.names_list_data = some p3 ∧
      projectFinancialRatio r.financial_ratio_type r.financial_ratio_data = some p4 ∧
      projectPercentageCondition r.percentage_condition_type r.percentage_condition_data = some p5 ∧
      d = baseDict r ++ p1 ++ p2 ++ p3 ++ p4 ++ p5 := by
  unfold FinancialData.to_dict at h
  cases h1 : projectCompositeValue r.composite_value_type r.composite_value_data with
  | none => rw [h1] at h; simp at h
  | some p1 =>
  rw [h1] at h
  cases h2 : projectPercentageMultiple r.percentage_multiple_type r.percentage_multiple_data with
  | none => rw [h2] at h; simp at h
  | some p2 =>
  rw [h2] at h
  cases h3 : projectNamesList r.names_list_type r.names_list_data with
  | none => rw [h3] at h; simp at h
  | some p3 =>
  rw [h3] at h
  cases h4 : projectFinancialRatio r.financial_ratio_type r.financial_ratio_data with
  | none => rw [h4] at h; simp at h
  | some p4 =>
  rw [h4] at h
  cases h5 : projectPercentageCondition r.percentage_condition_type r.percentage_condition_data with
  | none => rw [h5] at h; simp at h
  | some p5 =>
  rw [h5] at h
  simp at h
  refine ⟨p1, p2, p3, p4, p5, rfl, rfl, rfl, rfl, rfl, ?_⟩
  rw [← h]
  simp [List.append_assoc]

/-- A record created from a body with every slot omitted. -/
def emptyRecord : FinancialData := createRecord 2 0 {}

def emptyDict : List (String × Json) := (emptyRecord.to_dict).getD []


/-- C3: update performs a wholesale replace per slot: a slot key present
in the update payload replaces the stored (tag, payload) pair entirely
by the ingest of the new value, and a slot key absent from the update
payload clears both the stored tag and payload to unset. -/
theorem C3_update_wholesale_replace :
    ∀ (r : FinancialData) (now : Nat) (m : FinancialDataModel),
      ((∀ v, m.composite_value = some v →
          (updateRecord r now m).composite_value_type = some (ingestCompositeValue v).1 ∧
          (updateRecord r now m).composite_value_data = some (ingestCompositeValue v).2) ∧
        (m.composite_value = none →
          (updateRecord r now m).composite_value_type = none ∧
          (updateRecord r now m).composite_value_data = none)) ∧
      ((∀ v, m.percentage_multiple = some v →
          (updateRecord r now m).percentage_multiple_type = some (ingestPercentageMultiple v).1 ∧
          (updateRecord r now m).percentage_multiple_data = some (ingestPercentageMultiple v).2) ∧
        (m.percentage_multiple = none →
          (updateRecord r now m).percentage_multiple_type = none ∧
          (updateRecord r now m).percentage_multiple_data = none)) ∧
      ((∀ v, m.names_list = some v →
          (updateRecord r now m).names_list_type = some (ingestNamesList v).1 ∧
          (updateRecord r now m).names_list_data = some (ingestNamesList v).2) ∧
        (m.names_list = none →
          (updateRecord r now m).names_list_type = none ∧
          (updateRecord r now m).names_list_data = none)) ∧
      ((∀ v, m.financial_ratio = some v →
          (updateRecord r now m).financial_ratio_type = some (ingestFinancialRatio v).1 ∧
          (updateRecord r now m).financial_ratio_data = some (ingestFinancialRatio v).2) ∧
        (m.financial_ratio = none →
          (updateRecord r now m).financial_ratio_type = none ∧
          (updateRecord r now m).financial_ratio_data = none)) ∧
      ((∀ v, m.percentage_condition = some v →
          (updateRecord r now m).percentage_condition_type = some (ingestPercentageCondition v).1 ∧
          (updateRecord r now m).percentage_condition_data = some (ingestPercentageCondition v).2) ∧
        (m.percentage_condition = none →
          (updateRecord r now m).percentage_condition_type = none ∧
          (updateRecord r now m).percentage_condition_data = none)) := by
  intro r now m
  obtain ⟨h1, h2, h3, h4, h5, h6, h7, h8, h9, h10, -⟩ := updateRecord_slots r now m
  refine ⟨⟨?_, ?_⟩, ⟨?_, ?_⟩, ⟨?_, ?_⟩, ⟨?_, ?_⟩, ⟨?_, ?_⟩⟩
  · intro v hv; rw [h1, h2, hv]; exact ⟨rfl, rfl⟩
  · intro hv; rw [h1, h2, hv]; exact ⟨rfl, rfl⟩
  · intro v hv; rw [h3, h4, hv]; exact ⟨rfl, rfl⟩
  · intro hv; rw [h3, h4, hv]; exact ⟨rfl, rfl⟩
  · intro v hv; rw [h5, h6, hv]; exact ⟨rfl, rfl⟩
  · intro hv; rw [h5, h6, hv]; exact ⟨rfl, rfl⟩
  · intro v hv; rw [h7, h8, hv]; exact ⟨rfl, rfl⟩
  · intro hv; rw [h7, h8, hv]; exact ⟨rfl, rfl⟩
  · intro v hv; rw [h9, h10, hv]; exact ⟨rfl, rfl⟩
  · intro hv; rw [h9, h10, hv]; exact ⟨rfl, rfl⟩

/-- C3 witness: a record stored with a `greater_of` composite value,
updated by a body whose `composite_value` is `{type:number,
value:2000000}` and whose other slots are absent, holds exactly the new
pair with no leftover `details` and has all other slots cleared. -/
theorem C3_update_wholesale_replace_witness :
    (sampleUpdatedRecord.composite_value_type = some CompositeValueType.NUMBER ∧
     sampleUpdatedRecord.composite_value_data = some [("value", Json.num 2000000)]) ∧
    (sampleUpdatedRecord.percentage_multiple_type = none ∧
     sampleUpdatedRecord.percentage_multiple_data = none) ∧
    (sampleUpdatedRecord.names_list_type = none ∧
     sampleUpdatedRecord.names_list_data = none) ∧
    (sampleUpdatedRecord.financial_ratio_type = none ∧
     sampleUpdatedRecord.financial_ratio_data = none) ∧
    (sampleUpdatedRecord.percentage_condition_type = none ∧
     sampleUpdatedRecord.percentage_condition_data = none) :=
  let h := C3_update_wholesale_replace (createRecord 1 0 sampleModel) 3 sampleUpdateModel
  ⟨h.1.1 (.number 2000000) rfl, h.2.1.2 rfl, h.2.2.1.2 rfl,
   h.2.2.2.1.2 rfl, h.2.2.2.2.2 rfl⟩

/-- C8: `created_at` is set at creation and never changed by an update,
`updated_at` is refreshed on every successful write, and the id is
assigned at creation and left unchanged by updates. -/
theorem C8_timestamps_and_identity :
    (∀ (nextId now : Nat) (m : FinancialDataModel),
      (createRecord nextId now m).created_at = now ∧
      (createRecord nextId now m).updated_at = now ∧
      (createRecord nextId now m).id = nextId) ∧
    (∀ (r : FinancialData) (now : Nat) (m : FinancialDataModel),
      (updateRecord r now m).created_at = r.created_at ∧
      (updateRecord r now m).updated_at = now ∧
      (updateRecord r now m).id = r.id) := by
  constructor
  · intro nextId now m
    obtain ⟨-, -, -, -, -, -, -, -, -, -, hid, hca, hua⟩ :=
      createRecord_slots nextId now m
    exact ⟨hca, hua, hid⟩
  · intro r now m
    obtain ⟨-, -, -, -, -, -, -, -, -, -, hid, hca, hua⟩ :=
      updateRecord_slots r now m
    exact ⟨hca, hua, hid⟩

theorem ingestCompositeValue_keys (v : CompositeValue) :
    (ingestCompositeValue v).2.map Prod.fst
      = compositeValueKeys (ingestCompositeValue v).1 := by
  cases v <;> rfl

theorem ingestPercentageMultiple_keys (v : PercentageMultipleValue) :
    (ingestPercentageMultiple v).2.map Prod.fst
      = percentageMultipleKeys (ingestPercentageMultiple v).1 := by
  cases v <;> rfl

theorem ingestNamesList_keys (v : NamesListValue) :
    (ingestNamesList v).2.map Prod.fst
      = namesListKeys (ingestNamesList v).1 := by
  cases v <;> rfl

theorem ingestFinancialRatio_keys (v : FinancialRatioValue) :
    (ingestFinancialRatio v).2.map Prod.fst
      = financialRatioKeys (ingestFinancialRatio v).1 := by
  cases v <;> rfl

theorem ingestPercentageCondition_keys (v : PercentageConditionValue) :
    (ingestPercentageCondition v).2.map Prod.fst
      = percentageConditionKeys (ingestPercentageCondition v).1 := by
  cases v <;> rfl

theorem slotOk_ingest {α τ : Type} (keys : τ → List String)
    (ingest : α → τ × List (String × Json))
    (hkeys : ∀ v, (ingest v).2.map Prod.fst = keys (ingest v).1)
    (o : Option α) :
    slotOk keys (o.map fun v => (ingest v).1) (o.map fun v => (ingest v).2) := by
  cases o with
  | none => trivial
  | some v => exact ⟨(ingest v).2, rfl, hkeys v⟩

/-- C10: after every API write, each slot's column pair is consistent —
a non-`None` type column comes with a non-`None` data column holding
exactly the payload keys the tag requires (an empty mapping for marker
variants) — so `to_dict` never reads a required key from a missing or
mismatched payload. -/
theorem C10_write_consistency :
    (∀ (nextId now : Nat) (m : FinancialDataModel),
      recordConsistent (createRecord nextId now m) ∧
      ∃ d, (createRecord nextId now m).to_dict = some d) ∧
    (∀ (r : FinancialData) (now : Nat) (m : FinancialDataModel),
      recordConsistent (updateRecord r now m) ∧
      ∃ d, (updateRecord r now m).to_dict = some d) := by
  constructor
  · intro nextId now m
    obtain ⟨h1, h2, h3, h4, h5, h6, h7, h8, h9, h10, -⟩ :=
      createRecord_slots nextId now m
    refine ⟨⟨?_, ?_, ?_, ?_, ?_⟩, ⟨_, to_dict_createRecord nextId now m⟩⟩
    · rw [h1, h2]
      exact slotOk_ingest _ _ ingestCompositeValue_keys m.composite_value
    · rw [h3, h4]
      exact slotOk_ingest _ _ ingestPercentageMultiple_keys m.percentage_multiple
    · rw [h5, h6]
      exact slotOk_ingest _ _ ingestNamesList_keys m.names_list
    · rw [h7, h8]
      exact slotOk_ingest _ _ ingestFinancialRatio_keys m.financial_ratio
    · rw [h9, h10]
      exact slotOk_ingest _ _ ingestPercentageCondition_keys m.percentage_condition
  · intro r now m
    obtain ⟨h1, h2, h3, h4, h5, h6, h7, h8, h9, h10, -⟩ :=
      updateRecord_slots r now m
    refine ⟨⟨?_, ?_, ?_, ?_, ?_⟩, ⟨_, to_dict_updateRecord r now m⟩⟩
    · rw [h1, h2]
      exact slotOk_ingest _ _ ingestCompositeValue_keys m.composite_value
    · rw [h3, h4]
      exact slotOk_ingest _ _ ingestPercentageMultiple_keys m.percentage_multiple
    · rw [h5, h6]
      exact slotOk_ingest _ _ ingestNamesList_keys m.names_list
    · rw [h7, h8]
      exact slotOk_ingest _ _ ingestFinancialRatio_keys m.financial_ratio
    · rw [h9, h10]
      exact slotOk_ingest _ _ ingestPercentageCondition_keys m.percentage_condition

theorem find?_id_filter_ne (rows : List FinancialData) (rid : Nat) :
    (rows.filter (fun r => r.id != rid)).find? (fun r => r.id == rid) = none := by
  induction rows with
  | nil => rfl
  | cons hd tl ih =>
    by_cases h : hd.id = rid
    · simp [List.filter_cons, h, ih]
    · simp [List.filter_cons, List.find?_cons, h, ih]

/-- C6: GET, PUT and DELETE on an id with no stored record each respond
not-found and leave the store unchanged; DELETE on an existing id
responds no-content and the record is subsequently absent. -/
theorem C6_not_found_and_delete :
    (∀ (s : Store) (rid : Nat), s.rows.find? (fun r => r.id == rid) = none →
      get_financial_data s rid = .notFound ∧
      delete_financial_data s rid = (s, .notFound) ∧
      (∀ (now : Nat) (body : Json) (m : FinancialDataModel),
        parseFinancialDataModel body = .ok m →
        update_financial_data s now rid body = (s, .notFound))) ∧
    (∀ (s : Store) (rid : Nat) (r : FinancialData),
      s.rows.find? (fun r => r.id == rid) = some r →
      delete_financial_data s rid =
        ({ s with rows := s.rows.filter (fun x => x.id != rid) }, .noContent) ∧
      (delete_financial_data s rid).1.rows.find? (fun x => x.id == rid) = none) := by
  constructor
  · intro s rid hfind
    refine ⟨?_, ?_, ?_⟩
    · simp [get_financial_data, hfind]
    · simp [delete_financial_data, hfind]
    · intro now body m hm
      simp [update_financial_data, hm, hfind]
  · intro s rid r hfind
    refine ⟨?_, ?_⟩
    · simp [delete_financial_data, hfind]
    · simp [delete_financial_data, hfind, find?_id_filter_ne]

/-- A store holding exactly the sample record under id 1. -/
def oneRecordStore : Store :=
  { rows := [createRecord 1 0 sampleModel], nextId := 2 }

/-- C6 witness: on the empty store, GET, DELETE and PUT at id 999 all
yield not-found unchanged; deleting id 1 from a one-record store yields
no-content and the record is gone. -/
theorem C6_not_found_and_delete_witness :
    get_financial_data {} 999 = .notFound ∧
    delete_financial_data {} 999 = ({}, .notFound) ∧
    update_financial_data {} 7 999 (Json.obj []) = ({}, .notFound) ∧
    delete_financial_data oneRecordStore 1 =
      ({ oneRecordStore with
          rows := oneRecordStore.rows.filter (fun x => x.id != 1) }, .noContent) ∧
    (delete_financial_data oneRecordStore 1).1.rows.find? (fun x => x.id == 1) = none :=
  let h := C6_not_found_and_delete.1 {} 999 (by rfl)
  let h2 := C6_not_found_and_delete.2 oneRecordStore 1 (createRecord 1 0 sampleModel) (by rfl)
  ⟨h.1, h.2.1, h.2.2 7 (Json.obj []) {} (by rfl), h2.1, h2.2⟩

theorem length_of_projectAll :
    ∀ (xs : List FinancialData) (ys : List (List (String × Json))),
      projectAll xs = some ys → ys.length = xs.length := by
  intro xs
  induction xs with
  | nil =>
    intro ys h
    injection h with h
    subst h
    rfl
  | cons hd tl ih =>
    intro ys h
    simp [projectAll, Option.bind_eq_some] at h
    obtain ⟨y, hy, ys', hys', rfl⟩ := h
    simp [ih ys' hys']

/-- C7: listing returns records in insertion order, skipping the first
`offset` and returning at most `limit`, with `1 ≤ limit ≤ 1000`
(default 100) and `offset ≥ 0` (default 0) enforced at the boundary;
creation appends at the end of the stored order. -/
theorem C7_list_pagination :
    (∀ (s : Store) (l o : Int), 1 ≤ l → l ≤ 1000 → 0 ≤ o →
      ∀ ds, projectAll ((s.rows.drop o.toNat).take l.toNat) = some ds →
        get_all_financial_data s (some l) (some o) = .okList ds ∧
        ds.length = min l.toNat (s.rows.length - o.toNat)) ∧
    (∀ s : Store, get_all_financial_data s none none
        = get_all_financial_data s (some 100) (some 0)) ∧
    (∀ (s : Store) (l o : Int), (l < 1 ∨ 1000 < l) →
      get_all_financial_data s (some l) (some o)
        = .unprocessableEntity (.scalar "limit")) ∧
    (∀ (s : Store) (l o : Int), 1 ≤ l → l ≤ 1000 → o < 0 →
      get_all_financial_data s (some l) (some o)
        = .unprocessableEntity (.scalar "offset")) ∧
    (∀ (s : Store) (now : Nat) (body : Json) (m : FinancialDataModel),
      parseFinancialDataModel body = .ok m →
      (create_financial_data s now body).1.rows
        = s.rows ++ [createRecord s.nextId now m]) := by
  refine ⟨?_, ?_, ?_, ?_, ?_⟩
  · intro s l o hl1 hl2 ho ds hds
    have hc1 : ¬(l < 1 ∨ 1000 < l) := by omega
    have hc2 : ¬o < 0 := by omega
    constructor
    · simp [get_all_financial_data, hc1, hc2, hds]
    · rw [length_of_projectAll _ _ hds]
      simp [List.length_take, List.length_drop]
  · intro s
    rfl
  · intro s l o h
    simp only [get_all_financial_data, Option.getD_some]
    rw [if_pos h]
  · intro s l o hl1 hl2 ho
    have hc1 : ¬(l < 1 ∨ 1000 < l) := by omega
    simp only [get_all_financial_data, Option.getD_some]
    rw [if_neg hc1, if_pos ho]
  · intro s now body m hm
    simp only [create_financial_data, hm]
    cases h : (createRecord s.nextId now m).to_dict <;> simp [h]

/-- Five records in a store, as created in sequence. -/
def fiveStore : Store :=
  { rows := [createRecord 1 0 {}, createRecord 2 0 {}, createRecord 3 0 {},
             createRecord 4 0 {}, createRecord 5 0 {}]
    nextId := 6 }

def fivePageDs : List (List (String × Json)) :=
  (projectAll ((fiveStore.rows.drop (Int.toNat 1)).take (Int.toNat 2))).getD []

/-- C7 witness: after creating 5 records, listing with limit 2 and
offset 1 returns exactly 2 records. -/
theorem C7_list_pagination_witness :
    (get_all_financial_data fiveStore (some 2) (some 1) = .okList fivePageDs ∧
      fivePageDs.length
        = min (Int.toNat 2) (fiveStore.rows.length - Int.toNat 1)) ∧
    fivePageDs.length = 2 :=
  ⟨C7_list_pagination.1 fiveStore 2 1 (by decide) (by decide) (by decide)
      fivePageDs (by rfl),
   by rfl⟩

theorem except_bind_ok {ε α β : Type} {x : Except ε α} {f : α → Except ε β} {b : β}
    (h : x >>= f = .ok b) : ∃ a, x = .ok a ∧ f a = .ok b := by
  cases x with
  | error e => simp [Bind.bind, Except.bind] at h
  | ok a => exact ⟨a, rfl, by simpa [Bind.bind, Except.bind] using h⟩

theorem parseFDM_ok_slots {fs : List (String × Json)} {m : FinancialDataModel}
    (h : parseFinancialDataModel (.obj fs) = .ok m) :
    optSlot fs "composite_value" parseCompositeValue = .ok m.composite_value ∧
    optSlot fs "percentage_multiple" parsePercentageMultiple = .ok m.percentage_multiple ∧
    optSlot fs "names_list" parseNamesList = .ok m.names_list ∧
    optSlot fs "financial_ratio" parseFinancialRatio = .ok m.financial_ratio ∧
    optSlot fs "percentage_condition" parsePercentageCondition = .ok m.percentage_condition := by
  simp only [parseFinancialDataModel] at h
  obtain ⟨v1, h1, h⟩ := except_bind_ok h
  obtain ⟨v2, h2, h⟩ := except_bind_ok h
  obtain ⟨v3, h3, h⟩ := except_bind_ok h
  obtain ⟨v4, h4, h⟩ := except_bind_ok h
  obtain ⟨v5, h5, h⟩ := except_bind_ok h
  obtain ⟨v6, h6, h⟩ := except_bind_ok h
  obtain ⟨v7, h7, h⟩ := except_bind_ok h
  obtain ⟨v8, h8, h⟩ := except_bind_ok h
  obtain ⟨v9, h9, h⟩ := except_bind_ok h
  obtain ⟨v10, h10, h⟩ := except_bind_ok h
  obtain ⟨v11, h11, h⟩ := except_bind_ok h
  obtain ⟨v12, h12, h⟩ := except_bind_ok h
  injection h with h
  subst h
  exact ⟨h6, h7, h8, h9, h10⟩

theorem parseCompositeValue_unknown {fs : List (String × Json)} {t : String}
    (hty : fs.lookup "type" = some (.str t))
    (hmem : ¬ t ∈ compositeValueTags) :
    parseCompositeValue (.obj fs) = .error .UnknownVariant := by
  simp only [compositeValueTags, List.mem_cons, List.mem_singleton, not_or] at hmem
  obtain ⟨ha, hb, hc, hd⟩ := hmem
  simp [parseCompositeValue, parseCompositeMember, typeMatches, hty,
    classifySlotError, compositeValueTags, ha, hb, hc, hd]

theorem parsePercentageMultiple_unknown {fs : List (String × Json)} {t : String}
    (hty : fs.lookup "type" = some (.str t))
    (hmem : ¬ t ∈ percentageMultipleTags) :
    parsePercentageMultiple (.obj fs) = .error .UnknownVariant := by
  simp only [percentageMultipleTags, List.mem_cons, List.mem_singleton, not_or] at hmem
  obtain ⟨ha, hb, hc⟩ := hmem
  simp [parsePercentageMultiple, parsePercentageMultipleMember, typeMatches, hty,
    classifySlotError, percentageMultipleTags, ha, hb, hc]

theorem parseNamesList_unknown {fs : List (String × Json)} {t : String}
    (hty : fs.lookup "type" = some (.str t))
    (hmem : ¬ t ∈ namesListTags) :
    parseNamesList (.obj fs) = .error .UnknownVariant := by
  simp only [namesListTags, List.mem_cons, List.mem_singleton, not_or] at hmem
  obtain ⟨ha, hb⟩ := hmem
  simp [parseNamesList, parseNamesListMember, typeMatches, hty,
    classifySlotError, namesListTags, ha, hb]

theorem parseFinancialRatio_unknown {fs : List (String × Json)} {t : String}
    (hty : fs.lookup "type" = some (.str t))
    (hmem : ¬ t ∈ financialRatioTags) :
    parseFinancialRatio (.obj fs) = .error .UnknownVariant := by
  simp only [financialRatioTags, List.mem_cons, List.mem_singleton, not_or] at hmem
  obtain ⟨ha, hb, hc, hd, he, hf, hg, hh⟩ := hmem
  simp [parseFinancialRatio, parseFinancialRatioMember, typeMatches, hty,
    classifySlotError, financialRatioTags, ha, hb, hc, hd, he, hf, hg, hh]

theorem parsePercentageCondition_unknown {fs : List (String × Json)} {t : String}
    (hty : fs.lookup "type" = some (.str t))
    (hmem : ¬ t ∈ percentageConditionTags) :
    parsePercentageCondition (.obj fs) = .error .UnknownVariant := by
  simp only [percentageConditionTags, List.mem_cons, List.mem_singleton, not_or] at hmem
  obtain ⟨ha, hb, hc, hd, he⟩ := hmem
  simp [parsePercentageCondition, parsePercentageConditionMember, typeMatches, hty,
    classifySlotError, percentageConditionTags, ha, hb, hc, hd, he]

/-- C4: for every slot, an input object whose tag is not in the slot's
variant set fails validation with `UnknownVariant`; a body failing
validation is answered 422 unprocessable by POST and PUT with the store
unchanged, so no record is created or modified. -/
theorem C4_unknown_variant_rejected :
    (∀ (fs : List (String × Json)) (t : String),
      fs.lookup "type" = some (.str t) →
      (¬ t ∈ compositeValueTags →
        parseCompositeValue (.obj fs) = .error .UnknownVariant) ∧
      (¬ t ∈ percentageMultipleTags →
        parsePercentageMultiple (.obj fs) = .error .UnknownVariant) ∧
      (¬ t ∈ namesListTags →
        parseNamesList (.obj fs) = .error .UnknownVariant) ∧
      (¬ t ∈ financialRatioTags →
        parseFinancialRatio (.obj fs) = .error .UnknownVariant) ∧
      (¬ t ∈ percentageConditionTags →
        parsePercentageCondition (.obj fs) = .error .UnknownVariant)) ∧
    (∀ (s : Store) (now : Nat) (body : Json) (e : ValidationError),
      parseFinancialDataModel body = .error e →
      create_financial_data s now body = (s, .unprocessableEntity e) ∧
      ∀ rid, update_financial_data s now rid body = (s, .unprocessableEntity e)) ∧
    (∀ (s : Store) (now : Nat) (fs gs : List (String × Json)) (t : String),
      fs.lookup "composite_value" = some (.obj gs) →
      gs.lookup "type" = some (.str t) →
      ¬ t ∈ compositeValueTags →
      ∃ e, create_financial_data s now (.obj fs) = (s, .unprocessableEntity e)) := by
  refine ⟨?_, ?_, ?_⟩
  · intro fs t hty
    exact ⟨fun h => parseCompositeValue_unknown hty h,
           fun h => parsePercentageMultiple_unknown hty h,
           fun h => parseNamesList_unknown hty h,
           fun h => parseFinancialRatio_unknown hty h,
           fun h => parsePercentageCondition_unknown hty h⟩
  · intro s now body e hp
    exact ⟨by simp [create_financial_data, hp],
           fun rid => by simp [update_financial_data, hp]⟩
  · intro s now fs gs t hslot hty hmem
    cases hp : parseFinancialDataModel (.obj fs) with
    | error e => exact ⟨e, by simp [create_financial_data, hp]⟩
    | ok m =>
      exfalso
      have hs := (parseFDM_ok_slots hp).1
      have hcv := parseCompositeValue_unknown hty hmem
      simp [optSlot, hslot, hcv] at hs

def invalidTagSlot : List (String × Json) := [("type", Json.str "invalid_type")]

def invalidTagBody : Json :=
  Json.obj [("composite_value", Json.obj invalidTagSlot)]

/-- C4 witness: `{"type":"invalid_type"}` is rejected as
`UnknownVariant` by all five slots, and posting or putting a body
carrying it yields 422 with the empty store unchanged. -/
theorem C4_unknown_variant_rejected_witness :
    (parseCompositeValue (.obj invalidTagSlot) = .error .UnknownVariant ∧
     parsePercentageMultiple (.obj invalidTagSlot) = .error .UnknownVariant ∧
     parseNamesList (.obj invalidTagSlot) = .error .UnknownVariant ∧
     parseFinancialRatio (.obj invalidTagSlot) = .error .UnknownVariant ∧
     parsePercentageCondition (.obj invalidTagSlot) = .error .UnknownVariant) ∧
    create_financial_data {} 0 invalidTagBody
      = ({}, .unprocessableEntity (.slot "composite_value" .UnknownVariant)) ∧
    update_financial_data {} 0 999 invalidTagBody
      = ({}, .unprocessableEntity (.slot "composite_value" .UnknownVariant)) :=
  let h1 := C4_unknown_variant_rejected.1 invalidTagSlot "invalid_type" (by rfl)
  let h2 := C4_unknown_variant_rejected.2.1 {} 0 invalidTagBody
    (.slot "composite_value" .UnknownVariant) (by rfl)
  ⟨⟨h1.1 (by decide), h1.2.1 (by decide), h1.2.2.1 (by decide),
    h1.2.2.2.1 (by decide), h1.2.2.2.2 (by decide)⟩, h2.1, h2.2 999⟩

/-- The six `financial_ratio` tags that require a `ratio` payload. -/
def ratioDataTags : List String :=
  ["first_lien", "senior_secured", "secured", "total_net", "fixed_charge",
   "interest_coverage"]

theorem parseCompositeValue_missing_value {fs : List (String × Json)}
    (hty : fs.lookup "type" = some (.str "number"))
    (hval : reqField fs "value" jNum = none) :
    parseCompositeValue (.obj fs) = .error .MissingField := by
  simp [parseCompositeValue, parseCompositeMember, typeMatches, hty, hval,
    classifySlotError, compositeValueTags]

theorem parseCompositeValue_missing_details {fs : List (String × Json)}
    (hty : fs.lookup "type" = some (.str "greater_of"))
    (hval : reqField fs "details" parseGreaterOfModel = none) :
    parseCompositeValue (.obj fs) = .error .MissingField := by
  simp [parseCompositeValue, parseCompositeMember, typeMatches, hty, hval,
    classifySlotError, compositeValueTags]

theorem parsePercentageMultiple_missing_value {fs : List (String × Json)}
    (hty : fs.lookup "type" = some (.str "percentage"))
    (hval : reqField fs "value" jNum = none) :
    parsePercentageMultiple (.obj fs) = .error .MissingField := by
  simp [parsePercentageMultiple, parsePercentageMultipleMember, typeMatches, hty,
    hval, classifySlotError, percentageMultipleTags]

theorem parseNamesList_missing_names {fs : List (String × Json)}
    (hty : fs.lookup "type" = some (.str "names_list"))
    (hval : reqField fs "names" jStrList = none) :
    parseNamesList (.obj fs) = .error .MissingField := by
  simp [parseNamesList, parseNamesListMember, typeMatches, hty, hval,
    classifySlotError, namesListTags]

theorem parseFinancialRatio_missing_ratio {fs : List (String × Json)} {t : String}
    (htmem : t ∈ ratioDataTags)
    (hty : fs.lookup "type" = some (.str t))
    (hval : reqField fs "ratio" jNum = none) :
    parseFinancialRatio (.obj fs) = .error .MissingField := by
  simp only [ratioDataTags, List.mem_cons, List.not_mem_nil, or_false] at htmem
  rcases htmem with rfl | rfl | rfl | rfl | rfl | rfl <;>
    simp [parseFinancialRatio, parseFinancialRatioMember, typeMatches, hty, hval,
      classifySlotError, financialRatioTags]

theorem parsePercentageCondition_missing_wlt {fs : List (String × Json)}
    (hty : fs.lookup "type" = some (.str "with_leverage_test"))
    (hor : reqField fs "percentage" jNum = none ∨
      reqField fs "test" parseLeverageTestModel = none) :
    parsePercentageCondition (.obj fs) = .error .MissingField := by
  rcases hor with hval | hval
  · simp [parsePercentageCondition, parsePercentageConditionMember, typeMatches,
      hty, hval, classifySlotError, percentageConditionTags]
  · cases hp : reqField fs "percentage" jNum <;>
      simp [parsePercentageCondition, parsePercentageConditionMember, typeMatches,
        hty, hval, hp, classifySlotError, percentageConditionTags]

theorem parsePercentageCondition_missing_nlt {fs : List (String × Json)}
    (hty : fs.lookup "type" = some (.str "no_leverage_test"))
    (hval : reqField fs "percentage" jNum = none) :
    parsePercentageCondition (.obj fs) = .error .MissingField := by
  simp [parsePercentageCondition, parsePercentageConditionMember, typeMatches,
    hty, hval, classifySlotError, percentageConditionTags]

/-- C5: for every slot and tag with required payload fields, an input
carrying that tag but missing a required field, giving it the wrong
shape, or supplying a malformed nested object fails validation with
`MissingField`, surfaced as 422 with the store unchanged; in particular
`{"type":"number"}` with no `value` is rejected. -/
theorem C5_missing_field_rejected :
    (∀ fs : List (String × Json), fs.lookup "type" = some (.str "number") →
      reqField fs "value" jNum = none →
      parseCompositeValue (.obj fs) = .error .MissingField) ∧
    (∀ fs : List (String × Json), fs.lookup "type" = some (.str "greater_of") →
      reqField fs "details" parseGreaterOfModel = none →
      parseCompositeValue (.obj fs) = .error .MissingField) ∧
    (∀ fs : List (String × Json), fs.lookup "type" = some (.str "percentage") →
      reqField fs "value" jNum = none →
      parsePercentageMultiple (.obj fs) = .error .MissingField) ∧
    (∀ fs : List (String × Json), fs.lookup "type" = some (.str "names_list") →
      reqField fs "names" jStrList = none →
      parseNamesList (.obj fs) = .error .MissingField) ∧
    (∀ (fs : List (String × Json)) (t : String), t ∈ ratioDataTags →
      fs.lookup "type" = some (.str t) →
      reqField fs "ratio" jNum = none →
      parseFinancialRatio (.obj fs) = .error .MissingField) ∧
    (∀ fs : List (String × Json),
      fs.lookup "type" = some (.str "with_leverage_test") →
      (reqField fs "percentage" jNum = none ∨
        reqField fs "test" parseLeverageTestModel = none) →
      parsePercentageCondition (.obj fs) = .error .MissingField) ∧
    (∀ fs : List (String × Json),
      fs.lookup "type" = some (.str "no_leverage_test") →
      reqField fs "percentage" jNum = none →
      parsePercentageCondition (.obj fs) = .error .MissingField) ∧
    (∀ (s : Store) (now : Nat) (body : Json) (e : ValidationError),
      parseFinancialDataModel body = .error e →
      create_financial_data s now body = (s, .unprocessableEntity e) ∧
      ∀ rid, update_financial_data s now rid body = (s, .unprocessableEntity e)) ∧
    (∀ (s : Store) (now : Nat) (fs gs : List (String × Json)),
      fs.lookup "composite_value" = some (.obj gs) →
      gs.lookup "type" = some (.str "number") →
      reqField gs "value" jNum = none →
      ∃ e, create_financial_data s now (.obj fs) = (s, .unprocessableEntity e)) := by
  refine ⟨?_, ?_, ?_, ?_, ?_, ?_, ?_, ?_, ?_⟩
  · exact fun fs hty hval => parseCompositeValue_missing_value hty hval
  · exact fun fs hty hval => parseCompositeValue_missing_details hty hval
  · exact fun fs hty hval => parsePercentageMultiple_missing_value hty hval
  · exact fun fs hty hval => parseNamesList_missing_names hty hval
  · exact fun fs t htmem hty hval => parseFinancialRatio_missing_ratio htmem hty hval
  · exact fun fs hty hor => parsePercentageCondition_missing_wlt hty hor
  · exact fun fs hty hval => parsePercentageCondition_missing_nlt hty hval
  · intro s now body e hp
    exact ⟨by simp [create_financial_data, hp],
           fun rid => by simp [update_financial_data, hp]⟩
  · intro s now fs gs hslot hty hval
    cases hp : parseFinancialDataModel (.obj fs) with
    | error e => exact ⟨e, by simp [create_financial_data, hp]⟩
    | ok m =>
      exfalso
      have hs := (parseFDM_ok_slots hp).1
      have hcv := parseCompositeValue_missing_value hty hval
      simp [optSlot, hslot, hcv] at hs

def missingValueBody : Json :=
  Json.obj [("composite_value", Json.obj [("type", Json.str "number")])]

/-- C5 witness: `{"type":"number"}` without `value` is rejected as
`MissingField` (also with an uncoercible `value`, and for a malformed
nested leverage test), and posting or putting such a body yields 422
with the empty store unchanged; a numeric string `value` is coerced and
accepted, matching the service's lax float validation. -/
theorem C5_missing_field_rejected_witness :
    parseCompositeValue (.obj [("type", Json.str "number")])
      = .error .MissingField ∧
    parseCompositeValue (.obj [("type", Json.str "number"), ("value", Json.str "abc")])
      = .error .MissingField ∧
    parseFinancialRatio (.obj [("type", Json.str "total_net")])
      = .error .MissingField ∧
    parsePercentageCondition
        (.obj [("type", Json.str "with_leverage_test"),
               ("percentage", Json.num 15),
               ("test", Json.obj [("metric", Json.str "EBITDA")])])
      = .error .MissingField ∧
    create_financial_data {} 0 missingValueBody
      = ({}, .unprocessableEntity (.slot "composite_value" .MissingField)) ∧
    update_financial_data {} 0 999 missingValueBody
      = ({}, .unprocessableEntity (.slot "composite_value" .MissingField)) ∧
    (parseCompositeValue (.obj [("type", Json.str "number"),
        ("value", Json.str "123")])).toOption.isSome = true :=
  let h8 := C5_missing_field_rejected.2.2.2.2.2.2.2.1 {} 0 missingValueBody
    (.slot "composite_value" .MissingField) (by rfl)
  ⟨C5_missing_field_rejected.1 [("type", Json.str "number")] (by rfl) (by rfl),
   C5_missing_field_rejected.1
     [("type", Json.str "number"), ("value", Json.str "abc")] (by rfl) (by rfl),
   C5_missing_field_rejected.2.2.2.2.1 [("type", Json.str "total_net")]
     "total_net" (by decide) (by rfl) (by rfl),
   C5_missing_field_rejected.2.2.2.2.2.1
     [("type", Json.str "with_leverage_test"), ("percentage", Json.num 15),
      ("test", Json.obj [("metric", Json.str "EBITDA")])]
     (by rfl) (Or.inr (by rfl)),
   h8.1, h8.2 999, by rfl⟩

/-- C9: for every slot and recognized tag, ingest stores a payload
holding exactly the required fields for that tag, and validation is
insensitive to undeclared extra input fields — they are dropped
silently rather than causing a rejection. -/
theorem C9_extra_fields_dropped :
    (∀ v, (ingestCompositeValue v).2.map Prod.fst
        = compositeValueKeys (ingestCompositeValue v).1) ∧
    (∀ v, (ingestPercentageMultiple v).2.map Prod.fst
        = percentageMultipleKeys (ingestPercentageMultiple v).1) ∧
    (∀ v, (ingestNamesList v).2.map Prod.fst
        = namesListKeys (ingestNamesList v).1) ∧
    (∀ v, (ingestFinancialRatio v).2.map Prod.fst
        = financialRatioKeys (ingestFinancialRatio v).1) ∧
    (∀ v, (ingestPercentageCondition v).2.map Prod.fst
        = percentageConditionKeys (ingestPercentageCondition v).1) ∧
    (∀ (k : String) (j : Json) (fs : List (String × Json)),
      ¬ k ∈ ["type", "value", "details"] →
      parseCompositeValue (.obj ((k, j) :: fs)) = parseCompositeValue (.obj fs)) ∧
    (∀ (k : String) (j : Json) (fs : List (String × Json)),
      ¬ k ∈ ["type", "value"] →
      parsePercentageMultiple (.obj ((k, j) :: fs)) = parsePercentageMultiple (.obj fs)) ∧
    (∀ (k : String) (j : Json) (fs : List (String × Json)),
      ¬ k ∈ ["type", "names"] →
      parseNamesList (.obj ((k, j) :: fs)) = parseNamesList (.obj fs)) ∧
    (∀ (k : String) (j : Json) (fs : List (String × Json)),
      ¬ k ∈ ["type", "ratio"] →
      parseFinancialRatio (.obj ((k, j) :: fs)) = parseFinancialRatio (.obj fs)) ∧
    (∀ (k : String) (j : Json) (fs : List (String × Json)),
      ¬ k ∈ ["type", "percentage", "test"] →
      parsePercentageCondition (.obj ((k, j) :: fs)) = parsePercentageCondition (.obj fs)) := by
  refine ⟨ingestCompositeValue_keys, ingestPercentageMultiple_keys,
    ingestNamesList_keys, ingestFinancialRatio_keys,
    ingestPercentageCondition_keys, ?_, ?_, ?_, ?_, ?_⟩
  · intro k j fs hk
    simp only [List.mem_cons, List.not_mem_nil, or_false, not_or] at hk
    obtain ⟨h1, h2, h3⟩ := hk
    have l1 := lookup_cons_ne "type" k j fs (Ne.symm h1)
    have l2 := lookup_cons_ne "value" k j fs (Ne.symm h2)
    have l3 := lookup_cons_ne "details" k j fs (Ne.symm h3)
    simp [parseCompositeValue, parseCompositeMember, typeMatches, reqField,
      classifySlotError, l1, l2, l3]
  · intro k j fs hk
    simp only [List.mem_cons, List.not_mem_nil, or_false, not_or] at hk
    obtain ⟨h1, h2⟩ := hk
    have l1 := lookup_cons_ne "type" k j fs (Ne.symm h1)
    have l2 := lookup_cons_ne "value" k j fs (Ne.symm h2)
    simp [parsePercentageMultiple, parsePercentageMultipleMember, typeMatches,
      reqField, classifySlotError, l1, l2]
  · intro k j fs hk
    simp only [List.mem_cons, List.not_mem_nil, or_false, not_or] at hk
    obtain ⟨h1, h2⟩ := hk
    have l1 := lookup_cons_ne "type" k j fs (Ne.symm h1)
    have l2 := lookup_cons_ne "names" k j fs (Ne.symm h2)
    simp [parseNamesList, parseNamesListMember, typeMatches, reqField,
      classifySlotError, l1, l2]
  · intro k j fs hk
    simp only [List.mem_cons, List.not_mem_nil, or_false, not_or] at hk
    obtain ⟨h1, h2⟩ := hk
    have l1 := lookup_cons_ne "type" k j fs (Ne.symm h1)
    have l2 := lookup_cons_ne "ratio" k j fs (Ne.symm h2)
    simp [parseFinancialRatio, parseFinancialRatioMember, typeMatches, reqField,
      classifySlotError, l1, l2]
  · intro k j fs hk
    simp only [List.mem_cons, List.not_mem_nil, or_false, not_or] at hk
    obtain ⟨h1, h2, h3⟩ := hk
    have l1 := lookup_cons_ne "type" k j fs (Ne.symm h1)
    have l2 := lookup_cons_ne "percentage" k j fs (Ne.symm h2)
    have l3 := lookup_cons_ne "test" k j fs (Ne.symm h3)
    simp [parsePercentageCondition, parsePercentageConditionMember, typeMatches,
      reqField, classifySlotError, l1, l2, l3]

/-- C9 witness: a `number` payload carrying an extra `junk` field
validates exactly as the payload without it — accepted, with the extra
field dropped; the stored payload for `number` holds exactly `value`. -/
theorem C9_extra_fields_dropped_witness :
    (ingestCompositeValue (.number 5)).2.map Prod.fst
      = compositeValueKeys (ingestCompositeValue (.number 5)).1 ∧
    parseCompositeValue (.obj [("junk", Json.bool true),
        ("type", Json.str "number"), ("value", Json.num 5)])
      = parseCompositeValue (.obj [("type", Json.str "number"), ("value", Json.num 5)]) ∧
    parseCompositeValue (.obj [("type", Json.str "number"), ("value", Json.num 5)])
      = .ok (.number 5) :=
  ⟨C9_extra_fields_dropped.1 (.number 5),
   C9_extra_fields_dropped.2.2.2.2.2.1 "junk" (Json.bool true)
     [("type", Json.str "number"), ("value", Json.num 5)] (by decide),
   by rfl⟩

/-- Response-model serialization of a validated `FinancialDataModel`,
as FastAPI performs with default flags on every route: every declared
field is emitted in declaration order, unset optional fields as JSON
null, slot values as their wire objects. -/
def dumpFinancialDataModel (m : FinancialDataModel) : List (String × Json) :=
  [("id", (m.id.map (fun i => Json.num (i : Rat))).getD Json.null),
   ("boolean_value", (m.boolean_value.map Json.bool).getD Json.null),
   ("term_sheet_status",
     (m.term_sheet_status.map (fun s => Json.str s.value)).getD Json.null),
   ("numeric_value", (m.numeric_value.map Json.num).getD Json.null),
   ("date_value", (m.date_value.map Json.str).getD Json.null),
   ("composite_value", (m.composite_value.map wireCompositeValue).getD Json.null),
   ("percentage_multiple",
     (m.percentage_multiple.map wirePercentageMultiple).getD Json.null),
   ("names_list", (m.names_list.map wireNamesList).getD Json.null),
   ("financial_ratio", (m.financial_ratio.map wireFinancialRatio).getD Json.null),
   ("percentage_condition",
     (m.percentage_condition.map wirePercentageCondition).getD Json.null),
   ("created_at", (m.created_at.map Json.str).getD Json.null),
   ("updated_at", (m.updated_at.map Json.str).getD Json.null)]

/-- The HTTP body the routes actually put on the wire for a record:
`FinancialDataModel.parse_obj(record.to_dict())` re-serialized by
FastAPI's `response_model` handling with default flags. `none` marks
the unreachable failing paths (a `to_dict` crash or a stored row the
response model rejects). -/
def apiResponseBody (r : FinancialData) : Option (List (String × Json)) :=
  match r.to_dict with
  | none => none
  | some d =>
    match parseFinancialDataModel (.obj d) with
    | .ok m => some (dumpFinancialDataModel m)
    | .error _ => none

def emptyResponseBody : List (String × Json) :=
  (apiResponseBody emptyRecord).getD []

theorem dump_lookup_composite (m : FinancialDataModel) :
    (dumpFinancialDataModel m).lookup "composite_value"
      = some ((m.composite_value.map wireCompositeValue).getD Json.null) := rfl

theorem dump_lookup_percentage_multiple (m : FinancialDataModel) :
    (dumpFinancialDataModel m).lookup "percentage_multiple"
      = some ((m.percentage_multiple.map wirePercentageMultiple).getD Json.null) := rfl

theorem dump_lookup_names_list (m : FinancialDataModel) :
    (dumpFinancialDataModel m).lookup "names_list"
      = some ((m.names_list.map wireNamesList).getD Json.null) := rfl

theorem dump_lookup_financial_ratio (m : FinancialDataModel) :
    (dumpFinancialDataModel m).lookup "financial_ratio"
      = some ((m.financial_ratio.map wireFinancialRatio).getD Json.null) := rfl

theorem dump_lookup_percentage_condition (m : FinancialDataModel) :
    (dumpFinancialDataModel m).lookup "percentage_condition"
      = some ((m.percentage_condition.map wirePercentageCondition).getD Json.null) := rfl

/-- C2 counterexample: on a record created with every slot omitted, the
wire body the API returns carries `composite_value` as an explicit JSON
null — the key is present with a null value, refuting the claim that
the response omits the key of an unset slot. -/
theorem C2_response_null_counterexample :
    emptyRecord.composite_value_type = none ∧
    apiResponseBody emptyRecord = some emptyResponseBody ∧
    emptyResponseBody.lookup "composite_value" = some Json.null ∧
    ¬ (∀ (r : FinancialData) (b : List (String × Json)),
        apiResponseBody r = some b → r.composite_value_type = none →
        b.lookup "composite_value" = none) := by
  refine ⟨rfl, rfl, rfl, fun h => ?_⟩
  have hx := h emptyRecord emptyResponseBody rfl rfl
  have hnull : emptyResponseBody.lookup "composite_value" = some Json.null := rfl
  rw [hnull] at hx
  exact Option.noConfusion hx

/-- C2 (amended): for every record and every composite slot left
entirely unset (type column `None`), the dictionary built from the
stored record by `to_dict` omits the slot key entirely, and the HTTP
response — that dictionary re-validated and re-serialized through the
response model with default flags — carries the slot key explicitly
with a null value. -/
theorem C2_unset_slot_projection_and_response :
    (∀ (r : FinancialData) (d : List (String × Json)), r.to_dict = some d →
      (r.composite_value_type = none → d.lookup "composite_value" = none) ∧
      (r.percentage_multiple_type = none → d.lookup "percentage_multiple" = none) ∧
      (r.names_list_type = none → d.lookup "names_list" = none) ∧
      (r.financial_ratio_type = none → d.lookup "financial_ratio" = none) ∧
      (r.percentage_condition_type = none → d.lookup "percentage_condition" = none)) ∧
    (∀ (r : FinancialData) (b : List (String × Json)), apiResponseBody r = some b →
      (r.composite_value_type = none → b.lookup "composite_value" = some Json.null) ∧
      (r.percentage_multiple_type = none →
        b.lookup "percentage_multiple" = some Json.null) ∧
      (r.names_list_type = none → b.lookup "names_list" = some Json.null) ∧
      (r.financial_ratio_type = none → b.lookup "financial_ratio" = some Json.null) ∧
      (r.percentage_condition_type = none →
        b.lookup "percentage_condition" = some Json.null)) := by
  have partA : ∀ (r : FinancialData) (d : List (String × Json)), r.to_dict = some d →
      (r.composite_value_type = none → d.lookup "composite_value" = none) ∧
      (r.percentage_multiple_type = none → d.lookup "percentage_multiple" = none) ∧
      (r.names_list_type = none → d.lookup "names_list" = none) ∧
      (r.financial_ratio_type = none → d.lookup "financial_ratio" = none) ∧
      (r.percentage_condition_type = none → d.lookup "percentage_condition" = none) := by
    intro r d hd
    obtain ⟨p1, p2, p3, p4, p5, h1, h2, h3, h4, h5, rfl⟩ := to_dict_inv hd
    refine ⟨?_, ?_, ?_, ?_, ?_⟩
    · intro ht
      rw [ht] at h1
      simp only [projectCompositeValue, Option.some.injEq] at h1
      subst h1
      simp [lookup_append, lookup_baseDict_composite,
        @projectPercentageMultiple_keys _ _ _ h2 "composite_value" (by decide),
        @projectNamesList_keys _ _ _ h3 "composite_value" (by decide),
        @projectFinancialRatio_keys _ _ _ h4 "composite_value" (by decide),
        @projectPercentageCondition_keys _ _ _ h5 "composite_value" (by decide)]
    · intro ht
      rw [ht] at h2
      simp only [projectPercentageMultiple, Option.some.injEq] at h2
      subst h2
      simp [lookup_append, lookup_baseDict_percentage_multiple,
        @projectCompositeValue_keys _ _ _ h1 "percentage_multiple" (by decide),
        @projectNamesList_keys _ _ _ h3 "percentage_multiple" (by decide),
        @projectFinancialRatio_keys _ _ _ h4 "percentage_multiple" (by decide),
        @projectPercentageCondition_keys _ _ _ h5 "percentage_multiple" (by decide)]
    · intro ht
      rw [ht] at h3
      simp only [projectNamesList, Option.some.injEq] at h3
      subst h3
      simp [lookup_append, lookup_baseDict_names_list,
        @projectCompositeValue_keys _ _ _ h1 "names_list" (by decide),
        @projectPercentageMultiple_keys _ _ _ h2 "names_list" (by decide),
        @projectFinancialRatio_keys _ _ _ h4 "names_list" (by decide),
        @projectPercentageCondition_keys _ _ _ h5 "names_list" (by decide)]
    · intro ht
      rw [ht] at h4
      simp only [projectFinancialRatio, Option.some.injEq] at h4
      subst h4
      simp [lookup_append, lookup_baseDict_financial_ratio,
        @projectCompositeValue_keys _ _ _ h1 "financial_ratio" (by decide),
        @projectPercentageMultiple_keys _ _ _ h2 "financial_ratio" (by decide),
        @projectNamesList_keys _ _ _ h3 "financial_ratio" (by decide),
        @projectPercentageCondition_keys _ _ _ h5 "financial_ratio" (by decide)]
    · intro ht
      rw [ht] at h5
      simp only [projectPercentageCondition, Option.some.injEq] at h5
      subst h5
      simp [lookup_append, lookup_baseDict_percentage_condition,
        @projectCompositeValue_keys _ _ _ h1 "percentage_condition" (by decide),
        @projectPercentageMultiple_keys _ _ _ h2 "percentage_condition" (by decide),
        @projectNamesList_keys _ _ _ h3 "percentage_condition" (by decide),
        @projectFinancialRatio_keys _ _ _ h4 "percentage_condition" (by decide)]
  refine ⟨partA, ?_⟩
  intro r b hb
  cases hd : r.to_dict with
  | none =>
    rw [apiResponseBody, hd] at hb
    exact Option.noConfusion hb
  | some d =>
    have hb2 : (match parseFinancialDataModel (.obj d) with
        | .ok m => some (dumpFinancialDataModel m)
        | .error _ => none) = some b := by
      rw [← hb]
      simp [apiResponseBody, hd]
    cases hp : parseFinancialDataModel (.obj d) with
    | error e =>
      rw [hp] at hb2
      exact Option.noConfusion hb2
    | ok m =>
      rw [hp] at hb2
      injection hb2 with hb2
      subst hb2
      have ha := partA r d hd
      have hs := parseFDM_ok_slots hp
      refine ⟨?_, ?_, ?_, ?_, ?_⟩
      · intro ht
        have hopt : optSlot d "composite_value" parseCompositeValue = .ok none := by
          simp [optSlot, ha.1 ht]
        have hm := hopt.symm.trans hs.1
        injection hm with hm
        rw [dump_lookup_composite, ← hm]
        rfl
      · intro ht
        have hopt : optSlot d "percentage_multiple" parsePercentageMultiple = .ok none := by
          simp [optSlot, ha.2.1 ht]
        have hm := hopt.symm.trans hs.2.1
        injection hm with hm
        rw [dump_lookup_percentage_multiple, ← hm]
        rfl
      · intro ht
        have hopt : optSlot d "names_list" parseNamesList = .ok none := by
          simp [optSlot, ha.2.2.1 ht]
        have hm := hopt.symm.trans hs.2.2.1
        injection hm with hm
        rw [dump_lookup_names_list, ← hm]
        rfl
      · intro ht
        have hopt : optSlot d "financial_ratio" parseFinancialRatio = .ok none := by
          simp [optSlot, ha.2.2.2.1 ht]
        have hm := hopt.symm.trans hs.2.2.2.1
        injection hm with hm
        rw [dump_lookup_financial_ratio, ← hm]
        rfl
      · intro ht
        have hopt : optSlot d "percentage_condition" parsePercentageCondition = .ok none := by
          simp [optSlot, ha.2.2.2.2 ht]
        have hm := hopt.symm.trans hs.2.2.2.2
        injection hm with hm
        rw [dump_lookup_percentage_condition, ← hm]
        rfl

/-- C2 witness: creating from a body with all five slots omitted yields
a projection dictionary with all five slot keys absent, and a wire
response carrying all five slot keys as explicit JSON null. -/
theorem C2_unset_slot_projection_and_response_witness :
    (emptyDict.lookup "composite_value" = none ∧
      emptyDict.lookup "percentage_multiple" = none ∧
      emptyDict.lookup "names_list" = none ∧
      emptyDict.lookup "financial_ratio" = none ∧
      emptyDict.lookup "percentage_condition" = none) ∧
    (emptyResponseBody.lookup "composite_value" = some Json.null ∧
      emptyResponseBody.lookup "percentage_multiple" = some Json.null ∧
      emptyResponseBody.lookup "names_list" = some Json.null ∧
      emptyResponseBody.lookup "financial_ratio" = some Json.null ∧
      emptyResponseBody.lookup "percentage_condition" = some Json.null) :=
  let ha := C2_unset_slot_projection_and_response.1 emptyRecord emptyDict (by rfl)
  let hb := C2_unset_slot_projection_and_response.2 emptyRecord emptyResponseBody (by rfl)
  ⟨⟨ha.1 rfl, ha.2.1 rfl, ha.2.2.1 rfl, ha.2.2.2.1 rfl, ha.2.2.2.2 rfl⟩,
   ⟨hb.1 rfl, hb.2.1 rfl, hb.2.2.1 rfl, hb.2.2.2.1 rfl, hb.2.2.2.2 rfl⟩⟩
